import Mathlib

/-!
Verification of the approval-gated action pipeline of DeepAgents-Turbopack.

Part 1 embeds the SRE mock-infrastructure tools of `src/scripts/sre_tools.py`:
the `MOCK_SERVICES` dictionary and the per-tool `_execute` bodies, with the
process-global dictionary threaded as explicit state and every call to
`random.*` / `datetime.now()` supplied as an explicit parameter.  A tool that
returns a Python string is embedded as returning `Except String R` where
`Except.error msg` stands for the literal error f-string the Python code
returns and `Except.ok r` stands for `json.dumps` of the result dict `r`
(JSON serialization itself is not modelled).

Part 2 embeds the approval-policy configuration of
`src/agents/sre_agent/sre_agent.py` (`APPROVAL_REQUIRED_TOOLS`) and
`src/agents/stock_research_agent_hil.py` (`interrupt_on`), together with the
read-only/write tool classification lists of `sre_tools.py`.

Part 3 models the Pending-Action Ledger, Execution Engine and Conversation
Loop Driver; that code is not part of this repository (it lives in the
`langchain` HumanInTheLoopMiddleware collaborator), so those definitions are
modelled from the specification and are marked as such.
-/

/-- Value record of one entry of the `MOCK_SERVICES` dictionary in
`src/scripts/sre_tools.py`.  `error_rate` is a Python float there; the mock
values are all small decimal literals, embedded exactly as rationals. -/
structure ServiceInfo where
  status : String
  replicas : Nat
  cpu : Nat
  memory : Nat
  latency_p99 : Nat
  error_rate : Rat
  version : String
  last_deploy : String
deriving Repr, DecidableEq

/-- The mock service dictionary is embedded as an insertion-ordered
association list, matching Python dict semantics (unique keys, insertion
order preserved). -/
abbrev MockServices := List (String × ServiceInfo)

/-- The literal contents of `MOCK_SERVICES` in `src/scripts/sre_tools.py`. -/
def MOCK_SERVICES : MockServices :=
  [ ("api-gateway",
     { status := "healthy", replicas := 3, cpu := 45, memory := 62,
       latency_p99 := 120, error_rate := 0.1, version := "v2.4.1",
       last_deploy := "2024-01-10T14:30:00Z" }),
    ("user-service",
     { status := "healthy", replicas := 2, cpu := 30, memory := 45,
       latency_p99 := 80, error_rate := 0.05, version := "v1.8.3",
       last_deploy := "2024-01-08T10:15:00Z" }),
    ("order-service",
     { status := "degraded", replicas := 3, cpu := 85, memory := 78,
       latency_p99 := 450, error_rate := 2.5, version := "v3.2.0",
       last_deploy := "2024-01-12T09:00:00Z" }),
    ("payment-service",
     { status := "healthy", replicas := 4, cpu := 55, memory := 60,
       latency_p99 := 200, error_rate := 0.02, version := "v2.1.5",
       last_deploy := "2024-01-05T16:45:00Z" }),
    ("inventory-service",
     { status := "unhealthy", replicas := 2, cpu := 95, memory := 92,
       latency_p99 := 2500, error_rate := 15.3, version := "v1.5.2",
       last_deploy := "2024-01-11T11:20:00Z" }),
    ("notification-service",
     { status := "healthy", replicas := 2, cpu := 25, memory := 35,
       latency_p99 := 50, error_rate := 0.1, version := "v1.3.0",
       last_deploy := "2024-01-02T08:00:00Z" }),
    ("cache-service",
     { status := "healthy", replicas := 3, cpu := 40, memory := 70,
       latency_p99 := 5, error_rate := 0.01, version := "v1.0.2",
       last_deploy := "2023-12-20T12:00:00Z" }),
    ("database-primary",
     { status := "healthy", replicas := 1, cpu := 65, memory := 80,
       latency_p99 := 15, error_rate := 0.0, version := "v14.2",
       last_deploy := "2023-11-15T03:00:00Z" }) ]

/-- Dictionary lookup `MOCK_SERVICES[service_name]`, also deciding the guard
`service_name not in MOCK_SERVICES` (none = absent). -/
def findService (s : MockServices) (service_name : String) : Option (String × ServiceInfo) :=
  s.find? (fun p => p.1 == service_name)

/-- In-place item assignment `MOCK_SERVICES[service_name][field] = value`,
embedded as rebuilding the association list with the named key updated. -/
def setService (s : MockServices) (service_name : String) (f : ServiceInfo → ServiceInfo) :
    MockServices :=
  s.map (fun p => if p.1 == service_name then (p.1, f p.2) else p)

/-- The error f-string every service-targeting tool returns on an unknown
service: `f"Error: Service '{service_name}' not found. Available services:
{available}"` with `available = ", ".join(MOCK_SERVICES.keys())`. -/
def unknownServiceMsg (service_name : String) (s : MockServices) : String :=
  "Error: Service \x27" ++ service_name ++ "\x27 not found. Available services: " ++
    String.intercalate ", " (s.map (fun p => p.1))

/-- Log severity levels of the `LogLevel` enum. -/
inductive LogLevel where
  | debug | info | warning | error | critical
deriving Repr, DecidableEq

/-- The `.value` string of each `LogLevel` member. -/
def LogLevel.value : LogLevel → String
  | .debug => "debug"
  | .info => "info"
  | .warning => "warning"
  | .error => "error"
  | .critical => "critical"

/-- Diagnostic check types of the `DiagnosticType` enum. -/
inductive DiagnosticType where
  | connectivity | performance | resources | dependencies | full
deriving Repr, DecidableEq

/-- The `.value` string of each `DiagnosticType` member. -/
def DiagnosticType.value : DiagnosticType → String
  | .connectivity => "connectivity"
  | .performance => "performance"
  | .resources => "resources"
  | .dependencies => "dependencies"
  | .full => "full"

/-- Runbook types of the `RunbookType` enum. -/
inductive RunbookType where
  | restart_service | clear_cache | rotate_logs | scale_up | scale_down
  | failover | health_check
deriving Repr, DecidableEq

/-- The `.value` string of each `RunbookType` member. -/
def RunbookType.value : RunbookType → String
  | .restart_service => "restart_service"
  | .clear_cache => "clear_cache"
  | .rotate_logs => "rotate_logs"
  | .scale_up => "scale_up"
  | .scale_down => "scale_down"
  | .failover => "failover"
  | .health_check => "health_check"

/-- Result dict built by `check_service_health` (success path). -/
structure HealthResult where
  service : String
  status : String
  passed : Bool
  issues : List String
  cpu_percent : Nat
  memory_percent : Nat
  replicas : Nat
  latency_p99_ms : Nat
  error_rate_percent : Rat
  version : String
  last_deploy : String
  timestamp : String
deriving Repr, DecidableEq

/-- The issue list computed by `check_service_health` before substituting
the `["No issues detected"]` default. -/
def healthIssues (info : ServiceInfo) : List String :=
  (if info.cpu > 80 then ["High CPU usage: " ++ toString info.cpu ++ "%"] else []) ++
  (if info.memory > 85 then ["High memory usage: " ++ toString info.memory ++ "%"] else []) ++
  (if info.latency_p99 > 500 then
    ["High latency: " ++ toString info.latency_p99 ++ "ms p99"] else []) ++
  (if info.error_rate > 1 then
    ["Elevated error rate: " ++ toString info.error_rate ++ "%"] else [])

/-- Embedding of the `_execute` body of `check_service_health`.  `now` is
the string `datetime.now().isoformat()` would produce. -/
def check_service_health (now : String) (service_name : String) (s : MockServices) :
    Except String HealthResult × MockServices :=
  match findService s service_name with
  | none => (Except.error (unknownServiceMsg service_name s), s)
  | some p =>
    let info := p.2
    let issues := healthIssues info
    (Except.ok
      { service := service_name
        status := info.status
        passed := info.status == "healthy"
        issues := if issues.isEmpty then ["No issues detected"] else issues
        cpu_percent := info.cpu
        memory_percent := info.memory
        replicas := info.replicas
        latency_p99_ms := info.latency_p99
        error_rate_percent := info.error_rate
        version := info.version
        last_deploy := info.last_deploy
        timestamp := now }, s)

/-- One entry produced by `_generate_mock_logs`. -/
structure LogEntry where
  timestamp : String
  level : String
  service : String
  message : String
  trace_id : String
deriving Repr, DecidableEq

/-- The `"error"` message pool of `_generate_mock_logs`. -/
def log_messages_error : List String :=
  [ "Connection timeout to downstream service",
    "Database query failed: connection refused",
    "Memory allocation failed",
    "Request processing error: null pointer exception",
    "Failed to parse configuration file",
    "Circuit breaker opened for dependency" ]

/-- The `"warning"` message pool of `_generate_mock_logs`. -/
def log_messages_warning : List String :=
  [ "High memory usage detected: 85%",
    "Slow query detected: 2500ms",
    "Connection pool nearly exhausted",
    "Retry attempt 3/5 for external API call",
    "Cache miss rate above threshold" ]

/-- The `"info"` message pool of `_generate_mock_logs`. -/
def log_messages_info : List String :=
  [ "Service started successfully",
    "Health check passed",
    "Configuration reloaded",
    "New connection established",
    "Request processed successfully" ]

/-- `log_messages.get(level, log_messages["info"])`: levels other than
error/warning/info fall back to the info pool. -/
def logMessagesFor (level : String) : List String :=
  if level == "error" then log_messages_error
  else if level == "warning" then log_messages_warning
  else log_messages_info

/-- Embedding of `_generate_mock_logs`.  `timestampAt i` stands for
`(base_time - timedelta(minutes=i*5)).isoformat()`, `choiceAt i` for the
index drawn by `random.choice` on entry `i` (taken modulo the pool size),
and `traceAt i` for `random.randint(10000, 99999)` on entry `i`. -/
def generate_mock_logs (timestampAt : Nat → String) (choiceAt : Nat → Nat)
    (traceAt : Nat → Nat) (service : String) (level : String) (count : Nat) :
    List LogEntry :=
  (List.range count).map (fun i =>
    { timestamp := timestampAt i
      level := level.toUpper
      service := service
      message := (logMessagesFor level).getD (choiceAt i % (logMessagesFor level).length) ""
      trace_id := "trace-" ++ toString (traceAt i) })

/-- Result dict built by `get_service_logs` (success path). -/
structure LogsResult where
  service : String
  log_level : String
  count : Nat
  logs : List LogEntry
  timestamp : String
deriving Repr, DecidableEq

/-- Embedding of the `_execute` body of `get_service_logs`.  `limit` is a
Python int, so it is embedded as `Int`; `min(limit, 50)` feeds `range`,
which yields nothing for a negative bound. -/
def get_service_logs (timestampAt : Nat → String) (choiceAt : Nat → Nat)
    (traceAt : Nat → Nat) (now : String) (service_name : String)
    (log_level : LogLevel) (limit : Int) (s : MockServices) :
    Except String LogsResult × MockServices :=
  match findService s service_name with
  | none => (Except.error (unknownServiceMsg service_name s), s)
  | some _ =>
    let logs := generate_mock_logs timestampAt choiceAt traceAt service_name
      log_level.value (min limit 50).toNat
    (Except.ok
      { service := service_name
        log_level := log_level.value
        count := logs.length
        logs := logs
        timestamp := now }, s)

/-- Result dict built by `get_service_metrics` (success path).  The trend
values `max(10, cpu + random.randint(-15, 15))` mix a Nat with a signed
draw, so they are embedded as integers.  `latency_p50_ms = int(p99 * 0.4)`
and `latency_p95_ms = int(p99 * 0.8)` are embedded as exact rational
truncation `Int.toNat ∘ Rat.floor`, which agrees with CPython float
truncation on every latency value reachable from the mock data. -/
structure MetricsResult where
  service : String
  time_range : String
  cpu_percent : Nat
  memory_percent : Nat
  latency_p50_ms : Nat
  latency_p95_ms : Nat
  latency_p99_ms : Nat
  error_rate_percent : Rat
  requests_per_second : Nat
  cpu_trend : List Int
  memory_trend : List Int
  trend_labels : List String
  cpu_threshold : Nat
  memory_threshold : Nat
  latency_threshold_ms : Nat
  error_rate_threshold : Rat
  timestamp : String
deriving Repr, DecidableEq

/-- Embedding of the `_execute` body of `get_service_metrics`.  `cpuDraw i`
and `memDraw i` are the `random.randint(-15, 15)` / `(-10, 10)` draws for
trend point `i`; `rps` is `random.randint(100, 1000)`. -/
def get_service_metrics (cpuDraw memDraw : Nat → Int) (rps : Nat) (now : String)
    (service_name : String) (time_range : String) (s : MockServices) :
    Except String MetricsResult × MockServices :=
  match findService s service_name with
  | none => (Except.error (unknownServiceMsg service_name s), s)
  | some p =>
    let info := p.2
    let data_points := 6
    (Except.ok
      { service := service_name
        time_range := time_range
        cpu_percent := info.cpu
        memory_percent := info.memory
        latency_p50_ms := (Rat.floor ((info.latency_p99 : Rat) * (0.4 : Rat))).toNat
        latency_p95_ms := (Rat.floor ((info.latency_p99 : Rat) * (0.8 : Rat))).toNat
        latency_p99_ms := info.latency_p99
        error_rate_percent := info.error_rate
        requests_per_second := rps
        cpu_trend := (List.range data_points).map (fun i => max 10 ((info.cpu : Int) + cpuDraw i))
        memory_trend := (List.range data_points).map
          (fun i => max 20 ((info.memory : Int) + memDraw i))
        trend_labels := (List.range data_points).map
          (fun i => "-" ++ toString ((data_points - i) * 10) ++ "min")
        cpu_threshold := 80
        memory_threshold := 85
        latency_threshold_ms := 500
        error_rate_threshold := 1.0
        timestamp := now }, s)

/-- One connectivity sub-check of `run_diagnostic`. -/
structure ConnCheck where
  status : String
  latency_ms : Nat
deriving Repr, DecidableEq

/-- The `checks["connectivity"]` block of `run_diagnostic`. -/
structure ConnectivityChecks where
  database : ConnCheck
  cache : ConnCheck
  message_queue : ConnCheck
  external_api : ConnCheck
deriving Repr, DecidableEq

/-- The `checks["performance"]` block of `run_diagnostic`. -/
structure PerfCheck where
  status : String
  latency_p99_ms : Nat
  throughput_rps : Nat
  slow_queries_detected : Bool
deriving Repr, DecidableEq

/-- The `checks["resources"]` block of `run_diagnostic`. -/
structure ResourceCheck where
  status : String
  cpu_percent : Nat
  memory_percent : Nat
  disk_percent : Nat
  pod_restarts_24h : Nat
deriving Repr, DecidableEq

/-- One entry of the `checks["dependencies"]` block of `run_diagnostic`. -/
structure DepCheck where
  status : String
  reachable : Bool
deriving Repr, DecidableEq

/-- Result dict built by `run_diagnostic` (success path); absent check
blocks are `none`. -/
structure DiagnosticResult where
  service : String
  diagnostic_type : String
  overall_status : String
  connectivity : Option ConnectivityChecks
  performance : Option PerfCheck
  resources : Option ResourceCheck
  dependencies : Option (List (String × DepCheck))
  recommendations : List String
  timestamp : String
deriving Repr, DecidableEq

/-- The `perf_status` variable of `run_diagnostic`: starts at pass, set to
warning above 500ms, then to critical above 1000ms. -/
def perfStatus (info : ServiceInfo) : String :=
  if info.latency_p99 > 1000 then "critical"
  else if info.latency_p99 > 500 then "warning"
  else "pass"

/-- The `resource_status` variable of `run_diagnostic`. -/
def resourceStatus (info : ServiceInfo) : String :=
  if info.cpu > 90 ∨ info.memory > 95 then "critical"
  else if info.cpu > 80 ∨ info.memory > 85 then "warning"
  else "pass"

/-- The `overall_status` loop of `run_diagnostic`: iterates the check
blocks in dict insertion order, breaking on the first critical status and
remembering any warning.  The connectivity and dependencies blocks are
dicts of dicts, whose `.get("status")` is no status string, so they
contribute `none`. -/
def overallGo : List (Option String) → String → String
  | [], acc => acc
  | none :: rest, acc => overallGo rest acc
  | some st :: rest, acc =>
    if st == "critical" then "critical"
    else if st == "warning" then overallGo rest "warning"
    else overallGo rest acc

/-- Embedding of the `_execute` body of `run_diagnostic`.  `extApiDraw`
stands for the `random.random()` draw, `extApiLat`, `throughput`, `disk`
and `podRestarts` for the respective `random.randint` draws. -/
def run_diagnostic (extApiDraw : Rat) (extApiLat throughput disk podRestarts : Nat)
    (now : String) (service_name : String) (diagnostic_type : DiagnosticType)
    (s : MockServices) : Except String DiagnosticResult × MockServices :=
  match findService s service_name with
  | none => (Except.error (unknownServiceMsg service_name s), s)
  | some p =>
    let info := p.2
    let inclConn := diagnostic_type = DiagnosticType.connectivity ∨
      diagnostic_type = DiagnosticType.full
    let inclPerf := diagnostic_type = DiagnosticType.performance ∨
      diagnostic_type = DiagnosticType.full
    let inclRes := diagnostic_type = DiagnosticType.resources ∨
      diagnostic_type = DiagnosticType.full
    let inclDeps := diagnostic_type = DiagnosticType.dependencies ∨
      diagnostic_type = DiagnosticType.full
    let conn : Option ConnectivityChecks :=
      if inclConn then
        some { database := { status := "pass", latency_ms := 5 }
               cache := { status := "pass", latency_ms := 2 }
               message_queue := { status := "pass", latency_ms := 8 }
               external_api := { status := if extApiDraw > 0.3 then "pass" else "slow"
                                 latency_ms := extApiLat } }
      else none
    let perf : Option PerfCheck :=
      if inclPerf then
        some { status := perfStatus info
               latency_p99_ms := info.latency_p99
               throughput_rps := throughput
               slow_queries_detected := info.latency_p99 > 300 }
      else none
    let res : Option ResourceCheck :=
      if inclRes then
        some { status := resourceStatus info
               cpu_percent := info.cpu
               memory_percent := info.memory
               disk_percent := disk
               pod_restarts_24h := if info.status ≠ "healthy" then podRestarts else 0 }
      else none
    let depChecks : List (String × DepCheck) :=
      (s.filter (fun q => q.1 ≠ service_name)).map
        (fun q => (q.1, { status := q.2.status, reachable := true }))
    let deps : Option (List (String × DepCheck)) :=
      if inclDeps then some depChecks else none
    let unhealthyDeps := (depChecks.filter (fun q => q.2.status ≠ "healthy")).map (fun q => q.1)
    let recommendations :=
      (if inclPerf then
        (if info.latency_p99 > 500 then ["Consider scaling up replicas to handle load"] else []) ++
        (if info.latency_p99 > 1000 then ["Investigate slow database queries"] else [])
      else []) ++
      (if inclRes then
        (if info.cpu > 80 ∨ info.memory > 85 then
          ["Resource utilization high - consider scaling"] else []) ++
        (if info.cpu > 90 ∨ info.memory > 95 then
          ["Critical resource exhaustion - immediate action required"] else [])
      else []) ++
      (if inclDeps ∧ ¬ unhealthyDeps.isEmpty then
        ["Dependent services unhealthy: " ++ String.intercalate ", " unhealthyDeps] else [])
    let statuses : List (Option String) :=
      (if inclConn then [(none : Option String)] else []) ++
      (if inclPerf then [some (perfStatus info)] else []) ++
      (if inclRes then [some (resourceStatus info)] else []) ++
      (if inclDeps then [(none : Option String)] else [])
    (Except.ok
      { service := service_name
        diagnostic_type := diagnostic_type.value
        overall_status := overallGo statuses "pass"
        connectivity := conn
        performance := perf
        resources := res
        dependencies := deps
        recommendations :=
          if recommendations.isEmpty then ["No issues detected"] else recommendations
        timestamp := now }, s)

/-- Result dict built by `restart_service` (success path). -/
structure RestartResult where
  action : String
  service : String
  status : String
  restart_type : String
  replicas_restarted : Nat
  downtime : String
  reason : String
  new_status : String
  timestamp : String
deriving Repr, DecidableEq

/-- The three item assignments of `restart_service`: status set healthy,
cpu and memory capped via `min(60, cpu)` / `min(65, memory)` computed from
the values as they stood before the assignment. -/
def restartUpdate (i : ServiceInfo) : ServiceInfo :=
  { i with status := "healthy", cpu := min 60 i.cpu, memory := min 65 i.memory }

/-- Embedding of the `_execute` body of `restart_service`. -/
def restart_service (now : String) (service_name : String) (reason : String)
    (s : MockServices) : Except String RestartResult × MockServices :=
  match findService s service_name with
  | none => (Except.error (unknownServiceMsg service_name s), s)
  | some p =>
    let info := p.2
    (Except.ok
      { action := "restart_service"
        service := service_name
        status := "completed"
        restart_type := "rolling"
        replicas_restarted := info.replicas
        downtime := "0s (rolling restart)"
        reason := reason
        new_status := "healthy"
        timestamp := now }, setService s service_name restartUpdate)

/-- Result dict built by `scale_service` (success path). -/
structure ScaleResult where
  action : String
  service : String
  status : String
  previous_replicas : Nat
  new_replicas : Int
  scale_direction : String
  reason : String
  estimated_time : String
  timestamp : String
deriving Repr, DecidableEq

/-- Embedding of the `_execute` body of `scale_service`.  `target_replicas`
is a Python int, embedded as `Int`; the range guard admits exactly
1 ≤ target ≤ 10, after which the stored replica count is its value. -/
def scale_service (now : String) (service_name : String) (target_replicas : Int)
    (reason : String) (s : MockServices) : Except String ScaleResult × MockServices :=
  match findService s service_name with
  | none => (Except.error (unknownServiceMsg service_name s), s)
  | some p =>
    if ¬ (1 ≤ target_replicas ∧ target_replicas ≤ 10) then
      (Except.error "Error: target_replicas must be between 1 and 10", s)
    else
      let old_replicas := p.2.replicas
      (Except.ok
        { action := "scale_service"
          service := service_name
          status := "completed"
          previous_replicas := old_replicas
          new_replicas := target_replicas
          scale_direction := if target_replicas > (old_replicas : Int) then "up" else "down"
          reason := reason
          estimated_time := "30-60 seconds"
          timestamp := now },
       setService s service_name (fun i => { i with replicas := target_replicas.toNat }))

/-- Result dict built by `rollback_deployment` (success path). -/
structure RollbackResult where
  action : String
  service : String
  status : String
  previous_version : String
  rolled_back_to : String
  reason : String
  replicas_updated : Nat
  health_check : String
  readiness_check : String
  timestamp : String
deriving Repr, DecidableEq

/-- The message of the ValueError CPython raises when `int()` is given a
non-numeric string; the surrounding `except` clause turns it into the tool
error string. -/
def pyIntValueErrorMsg (lit : String) : String :=
  "invalid literal for int() with base 10: \x27" ++ lit ++ "\x27"

/-- The `'previous'` branch of `rollback_deployment`: strip every `v`,
split on dots, decrement the final numeric component (floored at 0). -/
def previousVersion (current_version : String) : Except String String :=
  let parts := (current_version.replace "v" "").splitOn "."
  match (parts.getLastD "").toNat? with
  | none => Except.error (pyIntValueErrorMsg (parts.getLastD ""))
  | some n =>
    Except.ok ("v" ++ String.intercalate "." (parts.dropLast ++ [toString (n - 1)]))

/-- Embedding of the `_execute` body of `rollback_deployment`.  A failing
`int()` parse inside the try block lands in the `except` clause, which
returns the wrapped message before any dictionary mutation. -/
def rollback_deployment (now : String) (service_name : String) (target_version : String)
    (reason : String) (s : MockServices) : Except String RollbackResult × MockServices :=
  match findService s service_name with
  | none => (Except.error (unknownServiceMsg service_name s), s)
  | some p =>
    let info := p.2
    let newVersion : Except String String :=
      if target_version == "previous" then previousVersion info.version
      else Except.ok target_version
    match newVersion with
    | Except.error e => (Except.error ("Error rolling back deployment: " ++ e), s)
    | Except.ok new_version =>
      (Except.ok
        { action := "rollback_deployment"
          service := service_name
          status := "completed"
          previous_version := info.version
          rolled_back_to := new_version
          reason := reason
          replicas_updated := info.replicas
          health_check := "passed"
          readiness_check := "passed"
          timestamp := now },
       setService s service_name (fun i =>
         { i with version := new_version, status := "healthy",
                  error_rate := 0.1, latency_p99 := 100 }))

/-- Result dict built by `execute_runbook` (success path).
`parameters_used` carries the parse outcome of the `parameters` argument:
`some repr` for a successful `json.loads`, `none` for a JSONDecodeError
(which the code replaces by the empty dict). -/
structure RunbookResult where
  action : String
  runbook : String
  service : String
  status : String
  steps_executed : List String
  parameters_used : Option String
  duration_seconds : Nat
  timestamp : String
deriving Repr, DecidableEq

/-- The per-runbook step list and state update of `execute_runbook`:
only the restart_service and scale_up runbooks mutate the dictionary;
rotate_logs, scale_down and failover fall into the generic else branch. -/
def runbookSteps (runbook_type : RunbookType) (info : ServiceInfo) : List String :=
  match runbook_type with
  | .restart_service =>
    [ "Draining connections from pod 1", "Restarting pod 1",
      "Pod 1 healthy, draining pod 2", "Restarting pod 2",
      "All pods restarted successfully" ]
  | .clear_cache =>
    [ "Connecting to cache service", "Flushing cache keys for service",
      "Cache cleared successfully", "Warming up critical cache entries" ]
  | .scale_up =>
    [ "Current replicas: " ++ toString info.replicas,
      "Scaling to: " ++ toString (min 10 (info.replicas * 2)) ++ " replicas",
      "New pods scheduled", "Pods ready and receiving traffic" ]
  | .health_check =>
    [ "Running connectivity checks", "Verifying database connections",
      "Checking cache connectivity", "Validating external API access",
      "All health checks passed" ]
  | rt => ["Executed " ++ rt.value ++ " runbook"]

/-- The dictionary mutation of `execute_runbook` for each runbook type. -/
def runbookUpdate (runbook_type : RunbookType) (s : MockServices) (service_name : String) :
    MockServices :=
  match runbook_type with
  | .restart_service => setService s service_name (fun i => { i with status := "healthy" })
  | .scale_up => setService s service_name (fun i => { i with replicas := min 10 (i.replicas * 2) })
  | _ => s

/-- Embedding of the `_execute` body of `execute_runbook`.  `parsedParams`
is the outcome of `json.loads(parameters)` and `duration` the
`random.randint(10, 60)` draw. -/
def execute_runbook (duration : Nat) (now : String) (parsedParams : Option String)
    (service_name : String) (runbook_type : RunbookType) (s : MockServices) :
    Except String RunbookResult × MockServices :=
  match findService s service_name with
  | none => (Except.error (unknownServiceMsg service_name s), s)
  | some p =>
    (Except.ok
      { action := "execute_runbook"
        runbook := runbook_type.value
        service := service_name
        status := "completed"
        steps_executed := runbookSteps runbook_type p.2
        parameters_used := parsedParams
        duration_seconds := duration
        timestamp := now }, runbookUpdate runbook_type s service_name)

/-- The tool names of the `READ_ONLY_TOOLS` list of `sre_tools.py`
(registration order). -/
def READ_ONLY_TOOL_NAMES : List String :=
  [ "list_services", "check_service_health", "get_service_logs",
    "get_service_metrics", "run_diagnostic", "analyze_incident" ]

/-- The tool names of the `WRITE_TOOLS` list of `sre_tools.py`
(registration order). -/
def WRITE_TOOL_NAMES : List String :=
  [ "restart_service", "scale_service", "rollback_deployment",
    "execute_runbook", "create_incident" ]

/-- `TOOLS = READ_ONLY_TOOLS + WRITE_TOOLS` of `sre_tools.py`, by name. -/
def SRE_TOOL_NAMES : List String := READ_ONLY_TOOL_NAMES ++ WRITE_TOOL_NAMES

/-- The dict `APPROVAL_REQUIRED_TOOLS = {tool.name: True for tool in
WRITE_TOOLS}` of `src/agents/sre_agent/sre_agent.py`, handed to
`HumanInTheLoopMiddleware(interrupt_on=...)`. -/
def APPROVAL_REQUIRED_TOOLS : List (String × Bool) :=
  WRITE_TOOL_NAMES.map (fun n => (n, true))

/-- The tool names of the `TOOLS` list of `stock_research_tools.py`. -/
def STOCK_TOOL_NAMES : List String :=
  [ "yahoo_finance_revenue_growth", "internal_db_revenue_growth",
    "analyst_pdf_revenue_growth" ]

/-- The dict `interrupt_on = {tool.name: True for tool in TOOLS}` built by
`build_agent` in `src/agents/stock_research_agent_hil.py`. -/
def stock_interrupt_on : List (String × Bool) :=
  STOCK_TOOL_NAMES.map (fun n => (n, true))

/-- Modelled from the spec: the middleware hook consulting an
`interrupt_on` dict is supplied by the external `HumanInTheLoopMiddleware`
collaborator; a tool interrupts for approval exactly when its name is
mapped to True, and a name absent from the dict never interrupts. -/
def interruptOn (m : List (String × Bool)) (name : String) : Bool :=
  match m.find? (fun p => p.1 == name) with
  | some p => p.2
  | none => false

/-- An action definition of the spec data model: a registered tool name
with its read-only/mutating classification. -/
structure ActionDefinition where
  name : String
  mutating : Bool
deriving Repr, DecidableEq

/-- The SRE agent's registry: the eleven tools of `sre_tools.py`,
classified mutating exactly when listed in `WRITE_TOOLS`. -/
def sreRegistry : List ActionDefinition :=
  READ_ONLY_TOOL_NAMES.map (fun n => { name := n, mutating := false }) ++
  WRITE_TOOL_NAMES.map (fun n => { name := n, mutating := true })

/-- Registry lookup by action name (first match, as for `dict` keys). -/
def lookupAction (reg : List ActionDefinition) (name : String) : Option ActionDefinition :=
  reg.find? (fun d => d.name == name)

/-- Error taxonomy of the approval-gated action pipeline (spec section 7). -/
inductive PipelineError where
  | UnknownActionError | DuplicateActionError | DuplicateRequestError
  | UnknownRequestError | InvalidTransitionError
deriving Repr, DecidableEq

/-- Modelled from the spec: `requiresApproval(actionName)` returns the
`mutating` flag of the matching `ActionDefinition` and fails with
`UnknownActionError` if the action is unregistered.  The concrete policy
data comes from the source (`APPROVAL_REQUIRED_TOOLS` over the
`WRITE_TOOLS` classification). -/
def requiresApproval (reg : List ActionDefinition) (name : String) :
    Except PipelineError Bool :=
  match lookupAction reg name with
  | none => Except.error PipelineError.UnknownActionError
  | some d => Except.ok d.mutating

/-- Verification harness for the purity claim: the process state
surrounding the policy, holding the approval dict together with the very
hidden state the spec rules out (history of past queries, a clock). -/
structure ApprovalContext where
  approvalMap : List (String × Bool)
  callHistory : List (String × Bool)
  now : Nat
deriving Repr, DecidableEq

/-- One policy query as the running agent performs it: the answer is read
off the approval dict alone, while the ambient state advances (the call is
logged, time passes). -/
def queryApproval (ctx : ApprovalContext) (name : String) : Bool × ApprovalContext :=
  let b := interruptOn ctx.approvalMap name
  (b, { ctx with callHistory := (name, b) :: ctx.callHistory, now := ctx.now + 1 })

/-- Modelled from the spec: an `ActionRequest` of the data model — the
Pending-Action Ledger and its entries are not implemented in this
repository (the langchain middleware holds the in-flight interrupt), so the
ledger component is modelled from spec sections 3 and 4.3. -/
structure ActionRequest where
  requestId : String
  actionName : String
  arguments : List (String × String)
  proposedAt : Nat
deriving Repr, DecidableEq

/-- Modelled from the spec: the opaque success payload or failure
description recorded against a ledger entry. -/
inductive Outcome where
  | success (payload : String)
  | failure (reason : String)
deriving Repr, DecidableEq

/-- Modelled from the spec: the lifecycle states of a PendingActionEntry. -/
inductive EntryState where
  | PROPOSED | APPROVED | REJECTED | EXECUTED | FAILED
deriving Repr, DecidableEq

/-- Modelled from the spec: the lifecycle wrapper around an ActionRequest. -/
structure PendingActionEntry where
  request : ActionRequest
  state : EntryState
  decidedBy : Option String
  decidedAt : Option Nat
  result : Option Outcome
  completedAt : Option Nat
deriving Repr, DecidableEq

/-- Modelled from the spec: the Pending-Action Ledger, in proposal order. -/
abbrev Ledger := List PendingActionEntry

/-- Lookup of a ledger entry by its request identifier. -/
def Ledger.getEntry (L : Ledger) (rid : String) : Option PendingActionEntry :=
  L.find? (fun e => e.request.requestId == rid)

/-- The entry a fresh proposal creates: state PROPOSED, nothing decided,
no result yet. -/
def freshEntry (req : ActionRequest) : PendingActionEntry :=
  { request := req, state := EntryState.PROPOSED, decidedBy := none,
    decidedAt := none, result := none, completedAt := none }

/-- Modelled from the spec: `propose(request)` for a mutating action
creates a PendingActionEntry in state PROPOSED and fails with
`DuplicateRequestError` if the requestId is already present. -/
def Ledger.propose (L : Ledger) (req : ActionRequest) : Except PipelineError Ledger :=
  match Ledger.getEntry L req.requestId with
  | some _ => Except.error PipelineError.DuplicateRequestError
  | none => Except.ok (L ++ [freshEntry req])

/-- Rewrites the entry (or entries) carrying the given requestId. -/
def updState (rid : String) (g : PendingActionEntry → PendingActionEntry) (L : Ledger) :
    Ledger :=
  L.map (fun x => if x.request.requestId == rid then g x else x)

/-- The per-entry rewrite a decision performs. -/
def decideUpd (approved : Bool) (who : String) (t : Nat) (x : PendingActionEntry) :
    PendingActionEntry :=
  { x with
    state := if approved then EntryState.APPROVED else EntryState.REJECTED,
    decidedBy := some who, decidedAt := some t }

/-- Modelled from the spec: `decide(requestId, approved, approverIdentity)`
transitions PROPOSED to APPROVED or REJECTED; `UnknownRequestError` if
absent, `InvalidTransitionError` if not currently PROPOSED. -/
def Ledger.decide (L : Ledger) (rid : String) (approved : Bool) (who : String)
    (t : Nat) : Except PipelineError Ledger :=
  match Ledger.getEntry L rid with
  | none => Except.error PipelineError.UnknownRequestError
  | some e =>
    if e.state = EntryState.PROPOSED then
      Except.ok (updState rid (decideUpd approved who t) L)
    else Except.error PipelineError.InvalidTransitionError

/-- The terminal state an outcome records: EXECUTED on success, FAILED on
failure. -/
def outcomeState : Outcome → EntryState
  | .success _ => EntryState.EXECUTED
  | .failure _ => EntryState.FAILED

/-- The per-entry rewrite recording an outcome performs. -/
def outcomeUpd (out : Outcome) (t : Nat) (x : PendingActionEntry) : PendingActionEntry :=
  { x with state := outcomeState out, result := some out, completedAt := some t }

/-- Modelled from the spec: `recordOutcome(requestId, result |
failureReason)` transitions APPROVED to EXECUTED or FAILED and fails with
`InvalidTransitionError` if the entry is not currently APPROVED. -/
def Ledger.recordOutcome (L : Ledger) (rid : String) (out : Outcome) (t : Nat) :
    Except PipelineError Ledger :=
  match Ledger.getEntry L rid with
  | none => Except.error PipelineError.UnknownRequestError
  | some e =>
    if e.state = EntryState.APPROVED then
      Except.ok (updState rid (outcomeUpd out t) L)
    else Except.error PipelineError.InvalidTransitionError

/-- Insertion step of the `proposedAt`-ascending sort used by
`listPending`. -/
def insertByProposedAt (e : PendingActionEntry) : List PendingActionEntry →
    List PendingActionEntry
  | [] => [e]
  | x :: xs =>
    if e.request.proposedAt ≤ x.request.proposedAt then e :: x :: xs
    else x :: insertByProposedAt e xs

/-- Insertion sort by `proposedAt` ascending. -/
def sortByProposedAt : List PendingActionEntry → List PendingActionEntry
  | [] => []
  | x :: xs => insertByProposedAt x (sortByProposedAt xs)

/-- Modelled from the spec: `listPending()` produces entries still in
PROPOSED, ordered by `proposedAt` ascending (oldest first). -/
def Ledger.listPending (L : Ledger) : List PendingActionEntry :=
  sortByProposedAt (L.filter (fun e => e.state == EntryState.PROPOSED))

/-- A handler collaborator: returns a result or fails with an exception
message (spec section 6). -/
abbrev Handlers := String → List (String × String) → Except String String

/-- Invoking the handler of an entry's action and capturing its result or
failure as an Outcome. -/
def runHandlerFor (handlers : Handlers) (e : PendingActionEntry) : Outcome :=
  match handlers e.request.actionName e.request.arguments with
  | Except.ok payload => Outcome.success payload
  | Except.error msg => Outcome.failure msg

/-- Modelled from the spec: the Execution Engine's `execute(entry)` —
invokes the handler of an APPROVED entry, records the outcome via
`recordOutcome`, and refuses (without invoking the handler) any entry not
currently APPROVED.  The second component counts handler invocations
performed by the call. -/
def executeEntry (handlers : Handlers) (L : Ledger) (rid : String) (t : Nat) :
    Except PipelineError (Ledger × Outcome) × Nat :=
  match Ledger.getEntry L rid with
  | none => (Except.error PipelineError.UnknownRequestError, 0)
  | some e =>
    if e.state = EntryState.APPROVED then
      (match Ledger.recordOutcome L rid (runHandlerFor handlers e) t with
       | Except.ok L2 => (Except.ok (L2, runHandlerFor handlers e), 1)
       | Except.error err => (Except.error err, 1))
    else (Except.error PipelineError.InvalidTransitionError, 0)

/-- Modelled from the spec: the Conversation Loop Driver's handling of one
proposed action — consult the Approval Policy; execute immediately
(collecting the outcome, touching no ledger) when no approval is needed;
otherwise register the request in the ledger and suspend. -/
def handleAction (reg : List ActionDefinition) (handlers : Handlers) (L : Ledger)
    (req : ActionRequest) : Except PipelineError (Ledger × Option Outcome) :=
  match requiresApproval reg req.actionName with
  | Except.error e => Except.error e
  | Except.ok true =>
    (match Ledger.propose L req with
     | Except.ok L2 => Except.ok (L2, none)
     | Except.error e => Except.error e)
  | Except.ok false =>
    Except.ok (L, some (runHandlerFor handlers (freshEntry req)))

/-- The ledger operations an external caller can perform. -/
inductive LedgerOp where
  | propose (req : ActionRequest)
  | decide (rid : String) (approved : Bool) (who : String) (t : Nat)
  | recordOutcome (rid : String) (out : Outcome) (t : Nat)
  | execute (rid : String) (t : Nat)
deriving Repr

/-- Applying one ledger operation. -/
def applyOp (handlers : Handlers) (L : Ledger) : LedgerOp → Except PipelineError Ledger
  | .propose req => Ledger.propose L req
  | .decide rid approved who t => Ledger.decide L rid approved who t
  | .recordOutcome rid out t => Ledger.recordOutcome L rid out t
  | .execute rid t =>
    match executeEntry handlers L rid t with
    | (Except.ok r, _) => Except.ok r.1
    | (Except.error e, _) => Except.error e

/-- Total step: a failing operation surfaces its error and leaves the
ledger unchanged (spec section 7: registry/ledger errors are surfaced
immediately, never silently swallowed into state changes). -/
def stepL (handlers : Handlers) (L : Ledger) (op : LedgerOp) : Ledger :=
  match applyOp handlers L op with
  | Except.ok L2 => L2
  | Except.error _ => L

/-- The state of the entry registered under a requestId, if any. -/
def entryState (L : Ledger) (rid : String) : Option EntryState :=
  (Ledger.getEntry L rid).map (fun e => e.state)

/-- The allowed evolutions of one entry's state across a single ledger
operation: stay put, or follow an edge of
PROPOSED → {APPROVED, REJECTED} → {EXECUTED, FAILED}. -/
def stepOK (s s' : EntryState) : Prop :=
  s = s' ∨
  (s = EntryState.PROPOSED ∧ (s' = EntryState.APPROVED ∨ s' = EntryState.REJECTED)) ∨
  (s = EntryState.APPROVED ∧ (s' = EntryState.EXECUTED ∨ s' = EntryState.FAILED))

/-- A terminal entry state. -/
def isTerminal (s : EntryState) : Prop :=
  s = EntryState.EXECUTED ∨ s = EntryState.FAILED

/-- Handler invocations attributed to one requestId along a run of ledger
operations. -/
def runInvocations (handlers : Handlers) (L : Ledger) (rid : String) :
    List LedgerOp → Nat
  | [] => 0
  | op :: ops =>
    (match op with
     | .execute rid2 t => if rid2 == rid then (executeEntry handlers L rid2 t).2 else 0
     | _ => 0) + runInvocations handlers (stepL handlers L op) rid ops

/-- The `try: ... except Exception as e: return f"{label}{str(e)}"` shape
wrapped around every `_execute` body in `sre_tools.py`: a failure of the
body is returned to the caller as a string carrying the exception message
(`str(e)`), never re-raised. -/
def tryExceptReturn (label : String) (body : Except String String) : String :=
  match body with
  | Except.ok out => out
  | Except.error e => label ++ e

/-- The comparison key of `listPending`: proposal time, ascending. -/
def leP (a b : PendingActionEntry) : Prop :=
  a.request.proposedAt ≤ b.request.proposedAt

/-- The request identifiers registered in a ledger, in proposal order. -/
def requestIds (L : Ledger) : List String :=
  L.map (fun e => e.request.requestId)

theorem find?_map_of_pred {α : Type} (p : α → Bool) (f : α → α)
    (hf : ∀ x, p (f x) = p x) (l : List α) :
    (l.map f).find? p = (l.find? p).map f := by
  induction l with
  | nil => rfl
  | cons a l ih =>
    simp only [List.map_cons, List.find?]
    rw [hf a]
    cases h : p a
    · simpa using ih
    · rfl

theorem find?_append_none {α : Type} (p : α → Bool) (l1 l2 : List α)
    (h : l1.find? p = none) : (l1 ++ l2).find? p = l2.find? p := by
  induction l1 with
  | nil => rfl
  | cons a l ih =>
    simp only [List.find?, List.cons_append] at *
    cases hp : p a
    · rw [hp] at h
      simp only [hp]
      exact ih (by simpa using h)
    · rw [hp] at h
      simp at h

theorem find?_append_some {α : Type} (p : α → Bool) (l1 l2 : List α) (a : α)
    (h : l1.find? p = some a) : (l1 ++ l2).find? p = some a := by
  induction l1 with
  | nil => simp [List.find?] at h
  | cons b l ih =>
    simp only [List.find?, List.cons_append] at *
    cases hp : p b
    · rw [hp] at h
      simp only [hp]
      exact ih (by simpa using h)
    · rw [hp] at h
      simpa using h

theorem getEntry_id {L : Ledger} {rid : String} {e : PendingActionEntry}
    (h : Ledger.getEntry L rid = some e) : e.request.requestId = rid := by
  have hp := List.find?_some h
  exact eq_of_beq hp

theorem getEntry_updState (rid0 : String) (g : PendingActionEntry → PendingActionEntry)
    (hg : ∀ x, (g x).request.requestId = x.request.requestId) (L : Ledger) (rid : String) :
    Ledger.getEntry (updState rid0 g L) rid =
      (Ledger.getEntry L rid).map
        (fun e => if e.request.requestId == rid0 then g e else e) := by
  unfold Ledger.getEntry updState
  apply find?_map_of_pred
  intro x
  cases hc : (x.request.requestId == rid0)
  · simp [hc]
  · simp only [hc, if_true, cond_true]
    simp [hg x]

theorem decideUpd_id (approved : Bool) (who : String) (t : Nat) (x : PendingActionEntry) :
    (decideUpd approved who t x).request.requestId = x.request.requestId := rfl

theorem outcomeUpd_id (out : Outcome) (t : Nat) (x : PendingActionEntry) :
    (outcomeUpd out t x).request.requestId = x.request.requestId := rfl

theorem propose_ok_inv {L : Ledger} {req : ActionRequest} {L2 : Ledger}
    (h : Ledger.propose L req = Except.ok L2) :
    Ledger.getEntry L req.requestId = none ∧ L2 = L ++ [freshEntry req] := by
  unfold Ledger.propose at h
  cases he : Ledger.getEntry L req.requestId with
  | none => rw [he] at h; exact ⟨rfl, (by injection h with h2; exact h2.symm)⟩
  | some e => rw [he] at h; cases h

theorem decide_ok_inv {L : Ledger} {rid : String} {approved : Bool} {who : String}
    {t : Nat} {L2 : Ledger} (h : Ledger.decide L rid approved who t = Except.ok L2) :
    ∃ e0, Ledger.getEntry L rid = some e0 ∧ e0.state = EntryState.PROPOSED ∧
      L2 = updState rid (decideUpd approved who t) L := by
  unfold Ledger.decide at h
  split at h
  · cases h
  · next e he =>
      split at h
      · next hs =>
          injection h with h2
          exact ⟨e, he, hs, h2.symm⟩
      · cases h

theorem recordOutcome_ok_inv {L : Ledger} {rid : String} {out : Outcome}
    {t : Nat} {L2 : Ledger} (h : Ledger.recordOutcome L rid out t = Except.ok L2) :
    ∃ e0, Ledger.getEntry L rid = some e0 ∧ e0.state = EntryState.APPROVED ∧
      L2 = updState rid (outcomeUpd out t) L := by
  unfold Ledger.recordOutcome at h
  split at h
  · cases h
  · next e he =>
      split at h
      · next hs =>
          injection h with h2
          exact ⟨e, he, hs, h2.symm⟩
      · cases h

theorem entryState_propose_ok {L : Ledger} {req : ActionRequest} {L2 : Ledger}
    (h : Ledger.propose L req = Except.ok L2) (rid : String) (e : PendingActionEntry)
    (he : Ledger.getEntry L rid = some e) : Ledger.getEntry L2 rid = some e := by
  obtain ⟨hn, hL⟩ := propose_ok_inv h
  subst hL
  exact find?_append_some _ _ _ _ he

theorem entryState_updState_step {L : Ledger} {rid0 rid : String}
    (g : PendingActionEntry → PendingActionEntry)
    (hg : ∀ x, (g x).request.requestId = x.request.requestId)
    {e : PendingActionEntry} (he : Ledger.getEntry L rid = some e) :
    Ledger.getEntry (updState rid0 g L) rid =
      some (if e.request.requestId == rid0 then g e else e) := by
  rw [getEntry_updState rid0 g hg L rid, he]
  rfl

theorem decide_stepOK {L : Ledger} {rid0 : String} {ap : Bool} {who : String} {t : Nat}
    {L2 : Ledger} (h : Ledger.decide L rid0 ap who t = Except.ok L2) (rid : String)
    (s s' : EntryState) (h1 : entryState L rid = some s)
    (h2 : entryState L2 rid = some s') : stepOK s s' := by
  obtain ⟨e0, he0, hst0, hL⟩ := decide_ok_inv h
  unfold entryState at h1 h2
  cases he : Ledger.getEntry L rid with
  | none => rw [he] at h1; cases h1
  | some e =>
    rw [he] at h1
    injection h1 with h1
    subst hL
    rw [entryState_updState_step _ (decideUpd_id ap who t) he] at h2
    cases hc : (e.request.requestId == rid0) with
    | false =>
      rw [hc] at h2
      simp only [if_false, Bool.false_eq_true, Option.map_some] at h2
      injection h2 with h2
      left
      rw [← h1, ← h2]
    | true =>
      rw [hc] at h2
      simp only [if_true, Option.map_some] at h2
      injection h2 with h2
      have hridrid0 : rid = rid0 := by
        rw [← getEntry_id he]
        exact eq_of_beq hc
      subst hridrid0
      rw [he] at he0
      injection he0 with he0
      subst he0
      right; left
      constructor
      · rw [← h1]; exact hst0
      · cases ap
        · right; rw [← h2]; rfl
        · left; rw [← h2]; rfl

theorem recordOutcome_stepOK {L : Ledger} {rid0 : String} {out : Outcome} {t : Nat}
    {L2 : Ledger} (h : Ledger.recordOutcome L rid0 out t = Except.ok L2) (rid : String)
    (s s' : EntryState) (h1 : entryState L rid = some s)
    (h2 : entryState L2 rid = some s') : stepOK s s' := by
  obtain ⟨e0, he0, hst0, hL⟩ := recordOutcome_ok_inv h
  unfold entryState at h1 h2
  cases he : Ledger.getEntry L rid with
  | none => rw [he] at h1; cases h1
  | some e =>
    rw [he] at h1
    injection h1 with h1
    subst hL
    rw [entryState_updState_step _ (outcomeUpd_id out t) he] at h2
    cases hc : (e.request.requestId == rid0) with
    | false =>
      rw [hc] at h2
      simp only [if_false, Bool.false_eq_true, Option.map_some] at h2
      injection h2 with h2
      left
      rw [← h1, ← h2]
    | true =>
      rw [hc] at h2
      simp only [if_true, Option.map_some] at h2
      injection h2 with h2
      have hridrid0 : rid = rid0 := by
        rw [← getEntry_id he]
        exact eq_of_beq hc
      subst hridrid0
      rw [he] at he0
      injection he0 with he0
      subst he0
      right; right
      constructor
      · rw [← h1]; exact hst0
      · cases out
        · left; rw [← h2]; rfl
        · right; rw [← h2]; rfl

theorem executeEntry_ok_inv {handlers : Handlers} {L : Ledger} {rid : String} {t : Nat}
    {r : Ledger × Outcome} {n : Nat}
    (h : executeEntry handlers L rid t = (Except.ok r, n)) :
    Ledger.recordOutcome L rid r.2 t = Except.ok r.1 := by
  unfold executeEntry at h
  split at h
  · injection h with ha hb
    exact Except.noConfusion ha
  · next e he =>
    split at h
    · next hs =>
      split at h
      · next L2 hro =>
        injection h with ha hb
        injection ha with ha
        rw [← ha]
        exact hro
      · next err hro =>
        injection h with ha hb
        exact Except.noConfusion ha
    · injection h with ha hb
      exact Except.noConfusion ha

theorem applyOp_execute_inv {handlers : Handlers} {L : Ledger} {rid2 : String} {t : Nat}
    {L2 : Ledger} (h : applyOp handlers L (LedgerOp.execute rid2 t) = Except.ok L2) :
    ∃ out, Ledger.recordOutcome L rid2 out t = Except.ok L2 := by
  simp only [applyOp] at h
  split at h
  · next r n hx =>
    injection h with h2
    subst h2
    exact ⟨r.2, executeEntry_ok_inv hx⟩
  · cases h

theorem stepL_mono {handlers : Handlers} {L : Ledger} {op : LedgerOp} {rid : String}
    {s s' : EntryState} (h1 : entryState L rid = some s)
    (h2 : entryState (stepL handlers L op) rid = some s') : stepOK s s' := by
  cases hop : applyOp handlers L op with
  | error e =>
    have hL : stepL handlers L op = L := by
      unfold stepL
      rw [hop]
    rw [hL, h1] at h2
    injection h2 with h2
    exact Or.inl h2
  | ok L2 =>
    have hL : stepL handlers L op = L2 := by
      unfold stepL
      rw [hop]
    rw [hL] at h2
    cases op with
    | propose req =>
      unfold entryState at h1 h2
      cases he : Ledger.getEntry L rid with
      | none => rw [he] at h1; cases h1
      | some e =>
        rw [he] at h1
        rw [entryState_propose_ok hop rid e he] at h2
        rw [h1] at h2
        injection h2 with h2
        exact Or.inl h2
    | decide rid0 ap who t => exact decide_stepOK hop rid s s' h1 h2
    | recordOutcome rid0 out t => exact recordOutcome_stepOK hop rid s s' h1 h2
    | execute rid2 t =>
      obtain ⟨out, hro⟩ := applyOp_execute_inv hop
      exact recordOutcome_stepOK hro rid s s' h1 h2

theorem entry_persists (handlers : Handlers) (op : LedgerOp) {L : Ledger} {rid : String}
    {e : PendingActionEntry} (he : Ledger.getEntry L rid = some e) :
    ∃ e', Ledger.getEntry (stepL handlers L op) rid = some e' := by
  cases hop : applyOp handlers L op with
  | error err =>
    refine ⟨e, ?_⟩
    unfold stepL
    rw [hop]
    exact he
  | ok L2 =>
    have hL : stepL handlers L op = L2 := by
      unfold stepL
      rw [hop]
    rw [hL]
    cases op with
    | propose req => exact ⟨e, entryState_propose_ok hop rid e he⟩
    | decide rid0 ap who t =>
      obtain ⟨e0, he0, hst0, hupd⟩ := decide_ok_inv hop
      subst hupd
      exact ⟨_, entryState_updState_step _ (decideUpd_id ap who t) he⟩
    | recordOutcome rid0 out t =>
      obtain ⟨e0, he0, hst0, hupd⟩ := recordOutcome_ok_inv hop
      subst hupd
      exact ⟨_, entryState_updState_step _ (outcomeUpd_id out t) he⟩
    | execute rid2 t =>
      obtain ⟨out, hro⟩ := applyOp_execute_inv hop
      obtain ⟨e0, he0, hst0, hupd⟩ := recordOutcome_ok_inv hro
      subst hupd
      exact ⟨_, entryState_updState_step _ (outcomeUpd_id out t) he⟩

theorem terminal_not_proposed {s : EntryState} (ht : isTerminal s) :
    s ≠ EntryState.PROPOSED := by
  cases ht with
  | inl h => rw [h]; intro hc; cases hc
  | inr h => rw [h]; intro hc; cases hc

theorem terminal_not_approved {s : EntryState} (ht : isTerminal s) :
    s ≠ EntryState.APPROVED := by
  cases ht with
  | inl h => rw [h]; intro hc; cases hc
  | inr h => rw [h]; intro hc; cases hc

theorem terminal_preserved {handlers : Handlers} {L : Ledger} {op : LedgerOp}
    {rid : String} {s : EntryState} (h1 : entryState L rid = some s)
    (ht : isTerminal s) : entryState (stepL handlers L op) rid = some s := by
  have hge : ∃ e, Ledger.getEntry L rid = some e := by
    unfold entryState at h1
    cases he : Ledger.getEntry L rid with
    | none => rw [he] at h1; cases h1
    | some e => exact ⟨e, rfl⟩
  obtain ⟨e, he⟩ := hge
  obtain ⟨e', he'⟩ := entry_persists handlers op he
  have h2 : entryState (stepL handlers L op) rid = some e'.state := by
    unfold entryState
    rw [he']
    rfl
  have hmono := stepL_mono h1 h2
  cases hmono with
  | inl hss => rw [h2, ← hss]
  | inr hrest =>
    cases hrest with
    | inl hp => exact absurd hp.1 (terminal_not_proposed ht)
    | inr ha => exact absurd ha.1 (terminal_not_approved ht)

theorem executeEntry_snd_zero (handlers : Handlers) (t : Nat) {L : Ledger} {rid : String}
    {s : EntryState} (h1 : entryState L rid = some s)
    (hs : s ≠ EntryState.APPROVED) : (executeEntry handlers L rid t).2 = 0 := by
  unfold entryState at h1
  cases he : Ledger.getEntry L rid with
  | none =>
    rw [he] at h1
    cases h1
  | some e =>
    rw [he] at h1
    injection h1 with h1
    have hes : e.state = s := h1
    have hne : ¬ e.state = EntryState.APPROVED := fun hc => hs (hes ▸ hc)
    simp only [executeEntry, he]
    rw [if_neg hne]

theorem recordOutcome_approved_eq {L : Ledger} {rid : String} {e : PendingActionEntry}
    (out : Outcome) (t : Nat) (he : Ledger.getEntry L rid = some e)
    (hs : e.state = EntryState.APPROVED) :
    Ledger.recordOutcome L rid out t = Except.ok (updState rid (outcomeUpd out t) L) := by
  simp only [Ledger.recordOutcome, he]
  rw [if_pos hs]

theorem executeEntry_approved_eq (handlers : Handlers) {L : Ledger} {rid : String}
    {e : PendingActionEntry} (t : Nat) (he : Ledger.getEntry L rid = some e)
    (hs : e.state = EntryState.APPROVED) :
    executeEntry handlers L rid t =
      (Except.ok (updState rid (outcomeUpd (runHandlerFor handlers e) t) L,
        runHandlerFor handlers e), 1) := by
  simp only [executeEntry, he]
  rw [if_pos hs, recordOutcome_approved_eq (runHandlerFor handlers e) t he hs]

theorem runInvocations_zero_of_terminal {handlers : Handlers} {rid : String}
    {s : EntryState} (ht : isTerminal s) (ops : List LedgerOp) :
    ∀ L : Ledger, entryState L rid = some s → runInvocations handlers L rid ops = 0 := by
  induction ops with
  | nil => intro L _; rfl
  | cons op ops ih =>
    intro L h1
    have hrec : runInvocations handlers (stepL handlers L op) rid ops = 0 :=
      ih (stepL handlers L op) (terminal_preserved h1 ht)
    cases op with
    | propose req => simp only [runInvocations, hrec]
    | decide rid0 ap who t => simp only [runInvocations, hrec]
    | recordOutcome rid0 out t => simp only [runInvocations, hrec]
    | execute rid2 t =>
      simp only [runInvocations, hrec, Nat.add_zero]
      cases hb : (rid2 == rid) with
      | false => simp
      | true =>
        have hr : rid2 = rid := eq_of_beq hb
        subst hr
        simp only [if_true]
        exact executeEntry_snd_zero handlers t h1 (terminal_not_approved ht)

theorem outcomeState_terminal (out : Outcome) : isTerminal (outcomeState out) := by
  cases out
  · exact Or.inl rfl
  · exact Or.inr rfl

theorem runInvocations_le_one (handlers : Handlers) (rid : String) (ops : List LedgerOp) :
    ∀ L : Ledger, runInvocations handlers L rid ops ≤ 1 := by
  induction ops with
  | nil => intro L; exact Nat.zero_le 1
  | cons op ops ih =>
    intro L
    cases op with
    | propose req =>
      simpa [runInvocations] using ih (stepL handlers L (LedgerOp.propose req))
    | decide rid0 ap who t =>
      simpa [runInvocations] using ih (stepL handlers L (LedgerOp.decide rid0 ap who t))
    | recordOutcome rid0 out t =>
      simpa [runInvocations] using ih (stepL handlers L (LedgerOp.recordOutcome rid0 out t))
    | execute rid2 t =>
      cases hb : (rid2 == rid) with
      | false =>
        simp only [runInvocations, hb, Bool.false_eq_true, if_false, Nat.zero_add]
        exact ih _
      | true =>
        have hr : rid2 = rid := eq_of_beq hb
        subst hr
        cases he : Ledger.getEntry L rid2 with
        | none =>
          have hz : (executeEntry handlers L rid2 t).2 = 0 := by
            simp only [executeEntry, he]
          simp only [runInvocations, hb, if_true, hz, Nat.zero_add]
          exact ih _
        | some e =>
          by_cases hs : e.state = EntryState.APPROVED
          · have hx := executeEntry_approved_eq handlers t he hs
            have hstep : stepL handlers L (LedgerOp.execute rid2 t) =
                updState rid2 (outcomeUpd (runHandlerFor handlers e) t) L := by
              unfold stepL
              simp only [applyOp, hx]
            have hterm : entryState (stepL handlers L (LedgerOp.execute rid2 t)) rid2 =
                some (outcomeState (runHandlerFor handlers e)) := by
              rw [hstep]
              unfold entryState
              rw [entryState_updState_step _ (outcomeUpd_id _ t) he]
              have hbe : (e.request.requestId == rid2) = true := by
                rw [getEntry_id he]
                exact hb
              rw [hbe]
              rfl
            have hrec : runInvocations handlers
                (stepL handlers L (LedgerOp.execute rid2 t)) rid2 ops = 0 :=
              runInvocations_zero_of_terminal (outcomeState_terminal _) ops _ hterm
            simp only [runInvocations, hb, if_true, hx, hrec, Nat.add_zero]
            exact Nat.le_refl 1
          · have hstate : entryState L rid2 = some e.state := by
              unfold entryState
              rw [he]
              rfl
            have hz := executeEntry_snd_zero handlers t hstate hs
            simp only [runInvocations, hb, if_true, hz, Nat.zero_add]
            exact ih _

theorem mem_insertByProposedAt (e a : PendingActionEntry) (l : List PendingActionEntry) :
    a ∈ insertByProposedAt e l ↔ a = e ∨ a ∈ l := by
  induction l with
  | nil => simp [insertByProposedAt]
  | cons x xs ih =>
    unfold insertByProposedAt
    by_cases h : e.request.proposedAt ≤ x.request.proposedAt
    · rw [if_pos h]
      simp [List.mem_cons]
    · rw [if_neg h]
      simp only [List.mem_cons, ih]
      tauto

theorem mem_sortByProposedAt (a : PendingActionEntry) (l : List PendingActionEntry) :
    a ∈ sortByProposedAt l ↔ a ∈ l := by
  induction l with
  | nil => simp [sortByProposedAt]
  | cons x xs ih =>
    unfold sortByProposedAt
    rw [mem_insertByProposedAt]
    simp [ih]

theorem pairwise_insertByProposedAt (e : PendingActionEntry) (l : List PendingActionEntry)
    (h : List.Pairwise leP l) : List.Pairwise leP (insertByProposedAt e l) := by
  induction l with
  | nil =>
    unfold insertByProposedAt
    exact List.pairwise_singleton leP e
  | cons x xs ih =>
    cases h with
    | cons hx hxs =>
      unfold insertByProposedAt
      by_cases hle : e.request.proposedAt ≤ x.request.proposedAt
      · rw [if_pos hle]
        constructor
        · intro b hb
          cases List.mem_cons.mp hb with
          | inl hbx => rw [hbx]; exact hle
          | inr hbxs => exact Nat.le_trans hle (hx b hbxs)
        · exact List.Pairwise.cons hx hxs
      · rw [if_neg hle]
        have hxe : leP x e := Nat.le_of_not_le hle
        constructor
        · intro b hb
          cases (mem_insertByProposedAt e b xs).mp hb with
          | inl hbe => rw [hbe]; exact hxe
          | inr hbxs => exact hx b hbxs
        · exact ih hxs

theorem pairwise_sortByProposedAt (l : List PendingActionEntry) :
    List.Pairwise leP (sortByProposedAt l) := by
  induction l with
  | nil => exact List.Pairwise.nil
  | cons x xs ih => exact pairwise_insertByProposedAt x (sortByProposedAt xs) ih

theorem sortByProposedAt_of_pairwise (l : List PendingActionEntry)
    (h : List.Pairwise leP l) : sortByProposedAt l = l := by
  induction l with
  | nil => rfl
  | cons x xs ih =>
    cases h with
    | cons hx hxs =>
      unfold sortByProposedAt
      rw [ih hxs]
      cases xs with
      | nil => rfl
      | cons y ys =>
        unfold insertByProposedAt
        rw [if_pos (show x.request.proposedAt ≤ y.request.proposedAt from
          hx y (List.mem_cons_self y ys))]

theorem requestIds_updState (rid : String) (g : PendingActionEntry → PendingActionEntry)
    (hg : ∀ x, (g x).request.requestId = x.request.requestId) (L : Ledger) :
    requestIds (updState rid g L) = requestIds L := by
  induction L with
  | nil => rfl
  | cons a l ih =>
    simp only [requestIds, updState, List.map_cons] at *
    rw [ih]
    have ha : (if a.request.requestId == rid then g a else a).request.requestId =
        a.request.requestId := by
      cases hc : (a.request.requestId == rid)
      · simp [hc]
      · simp [hc, hg a]
    rw [ha]

theorem not_mem_requestIds_of_getEntry_none {L : Ledger} {rid : String}
    (h : Ledger.getEntry L rid = none) : rid ∉ requestIds L := by
  intro hmem
  unfold requestIds at hmem
  rw [List.mem_map] at hmem
  obtain ⟨e, heL, heid⟩ := hmem
  have hne := List.find?_eq_none.mp h e heL
  apply hne
  rw [heid]
  exact beq_self_eq_true rid

theorem requestIds_nodup_step (handlers : Handlers) (L : Ledger) (op : LedgerOp)
    (h : (requestIds L).Nodup) : (requestIds (stepL handlers L op)).Nodup := by
  cases hop : applyOp handlers L op with
  | error err =>
    have hL : stepL handlers L op = L := by
      unfold stepL
      rw [hop]
    rw [hL]
    exact h
  | ok L2 =>
    have hL : stepL handlers L op = L2 := by
      unfold stepL
      rw [hop]
    rw [hL]
    cases op with
    | propose req =>
      obtain ⟨hnone, happ⟩ := propose_ok_inv hop
      subst happ
      have hids : requestIds (L ++ [freshEntry req]) =
          requestIds L ++ [req.requestId] := by
        unfold requestIds
        rw [List.map_append]
        rfl
      rw [hids]
      rw [List.nodup_append]
      refine ⟨h, List.nodup_singleton _, ?_⟩
      intro a haL hab
      rw [List.mem_singleton] at hab
      subst hab
      exact not_mem_requestIds_of_getEntry_none hnone haL
    | decide rid0 ap who t =>
      obtain ⟨e0, he0, hst0, hupd⟩ := decide_ok_inv hop
      subst hupd
      rw [requestIds_updState rid0 _ (decideUpd_id ap who t) L]
      exact h
    | recordOutcome rid0 out t =>
      obtain ⟨e0, he0, hst0, hupd⟩ := recordOutcome_ok_inv hop
      subst hupd
      rw [requestIds_updState rid0 _ (outcomeUpd_id out t) L]
      exact h
    | execute rid2 t =>
      obtain ⟨out, hro⟩ := applyOp_execute_inv hop
      obtain ⟨e0, he0, hst0, hupd⟩ := recordOutcome_ok_inv hro
      subst hupd
      rw [requestIds_updState rid2 _ (outcomeUpd_id out t) L]
      exact h

/-- C2: every PendingActionEntry state only moves forward along
PROPOSED → (APPROVED | REJECTED) → (EXECUTED | FAILED): no ledger operation
(propose, decide, recordOutcome, or the engine's execute) regresses an
entry's state, an entry becomes EXECUTED or FAILED only from APPROVED, and
a REJECTED entry is terminal and never executed. -/
theorem ledger_state_monotonic (handlers : Handlers) (L : Ledger) (op : LedgerOp)
    (rid : String) (s s' : EntryState) (h1 : entryState L rid = some s)
    (h2 : entryState (stepL handlers L op) rid = some s') :
    stepOK s s' ∧
    (isTerminal s' → s ≠ s' → s = EntryState.APPROVED) ∧
    (s = EntryState.REJECTED → s' = EntryState.REJECTED) := by
  have hm := stepL_mono h1 h2
  refine ⟨hm, ?_, ?_⟩
  · intro ht hne
    cases hm with
    | inl hss => exact absurd hss hne
    | inr hrest =>
      cases hrest with
      | inl hp =>
        cases hp.2 with
        | inl ha =>
          cases ht with
          | inl hx => rw [ha] at hx; cases hx
          | inr hx => rw [ha] at hx; cases hx
        | inr hr =>
          cases ht with
          | inl hx => rw [hr] at hx; cases hx
          | inr hx => rw [hr] at hx; cases hx
      | inr ha => exact ha.1
  · intro hrej
    cases hm with
    | inl hss => rw [← hss, hrej]
    | inr hrest =>
      cases hrest with
      | inl hp => rw [hrej] at hp; cases hp.1
      | inr ha => rw [hrej] at ha; cases ha.1

/-- Witness for C2 at a concrete input: approving a freshly proposed entry
moves it PROPOSED → APPROVED, which satisfies the monotonicity relation. -/
theorem ledger_state_monotonic_witness :
    entryState [freshEntry { requestId := "r1", actionName := "scale_service",
                             arguments := [], proposedAt := 0 }] "r1" =
      some EntryState.PROPOSED ∧
    entryState (stepL (fun _ _ => Except.ok "")
      [freshEntry { requestId := "r1", actionName := "scale_service",
                    arguments := [], proposedAt := 0 }]
      (LedgerOp.decide "r1" true "alice" 5)) "r1" = some EntryState.APPROVED ∧
    (stepOK EntryState.PROPOSED EntryState.APPROVED ∧
     (isTerminal EntryState.APPROVED → EntryState.PROPOSED ≠ EntryState.APPROVED →
       EntryState.PROPOSED = EntryState.APPROVED) ∧
     (EntryState.PROPOSED = EntryState.REJECTED →
       EntryState.APPROVED = EntryState.REJECTED)) := by
  refine ⟨by decide, by decide, ?_⟩
  exact ledger_state_monotonic (fun _ _ => Except.ok "")
    [freshEntry { requestId := "r1", actionName := "scale_service",
                  arguments := [], proposedAt := 0 }]
    (LedgerOp.decide "r1" true "alice" 5)
    "r1" EntryState.PROPOSED EntryState.APPROVED (by decide) (by decide)

/-- C3: recording an outcome a second time against a requestId whose entry
is already terminal (EXECUTED or FAILED) fails with InvalidTransitionError;
the engine refuses to execute a terminal entry without invoking the handler;
executing an APPROVED entry invokes the handler exactly once and leaves the
entry terminal; and along any run of ledger operations the handler of a
given requestId fires at most once. -/
theorem recordOutcome_idempotent_terminal :
    (∀ (L : Ledger) (rid : String) (out : Outcome) (t : Nat) (e : PendingActionEntry),
      Ledger.getEntry L rid = some e → isTerminal e.state →
      Ledger.recordOutcome L rid out t =
        Except.error PipelineError.InvalidTransitionError) ∧
    (∀ (handlers : Handlers) (L : Ledger) (rid : String) (t : Nat) (e : PendingActionEntry),
      Ledger.getEntry L rid = some e → isTerminal e.state →
      executeEntry handlers L rid t =
        (Except.error PipelineError.InvalidTransitionError, 0)) ∧
    (∀ (handlers : Handlers) (L : Ledger) (rid : String) (t : Nat) (e : PendingActionEntry),
      Ledger.getEntry L rid = some e → e.state = EntryState.APPROVED →
      executeEntry handlers L rid t =
        (Except.ok (updState rid (outcomeUpd (runHandlerFor handlers e) t) L,
          runHandlerFor handlers e), 1) ∧
      isTerminal (outcomeState (runHandlerFor handlers e))) ∧
    (∀ (handlers : Handlers) (L : Ledger) (rid : String) (ops : List LedgerOp),
      runInvocations handlers L rid ops ≤ 1) := by
  refine ⟨?_, ?_, ?_, ?_⟩
  · intro L rid out t e he ht
    simp only [Ledger.recordOutcome, he]
    rw [if_neg (terminal_not_approved ht)]
  · intro handlers L rid t e he ht
    simp only [executeEntry, he]
    rw [if_neg (terminal_not_approved ht)]
  · intro handlers L rid t e he hs
    exact ⟨executeEntry_approved_eq handlers t he hs, outcomeState_terminal _⟩
  · intro handlers L rid ops
    exact runInvocations_le_one handlers rid ops L

/-- Witness for C3 at a concrete input: an entry already EXECUTED rejects a
second recordOutcome with InvalidTransitionError. -/
theorem recordOutcome_idempotent_terminal_witness :
    Ledger.getEntry
      [{ request := { requestId := "r1", actionName := "restart_service",
                      arguments := [], proposedAt := 0 },
         state := EntryState.EXECUTED, decidedBy := some "alice",
         decidedAt := some 1, result := some (Outcome.success "done"),
         completedAt := some 2 }] "r1" =
      some { request := { requestId := "r1", actionName := "restart_service",
                          arguments := [], proposedAt := 0 },
             state := EntryState.EXECUTED, decidedBy := some "alice",
             decidedAt := some 1, result := some (Outcome.success "done"),
             completedAt := some 2 } ∧
    Ledger.recordOutcome
      [{ request := { requestId := "r1", actionName := "restart_service",
                      arguments := [], proposedAt := 0 },
         state := EntryState.EXECUTED, decidedBy := some "alice",
         decidedAt := some 1, result := some (Outcome.success "done"),
         completedAt := some 2 }] "r1" (Outcome.success "again") 9 =
      Except.error PipelineError.InvalidTransitionError := by
  refine ⟨by decide, ?_⟩
  exact recordOutcome_idempotent_terminal.1
    [{ request := { requestId := "r1", actionName := "restart_service",
                    arguments := [], proposedAt := 0 },
       state := EntryState.EXECUTED, decidedBy := some "alice",
       decidedAt := some 1, result := some (Outcome.success "done"),
       completedAt := some 2 }] "r1" (Outcome.success "again") 9
    { request := { requestId := "r1", actionName := "restart_service",
                   arguments := [], proposedAt := 0 },
      state := EntryState.EXECUTED, decidedBy := some "alice",
      decidedAt := some 1, result := some (Outcome.success "done"),
      completedAt := some 2 }
    (by decide) (Or.inl rfl)

/-- C4: propose on a fresh requestId creates a PROPOSED entry; a second
propose with a requestId already present fails with DuplicateRequestError
and leaves the existing entry unchanged; and every ledger operation
preserves uniqueness of the registered requestIds. -/
theorem propose_duplicate_rejected :
    (∀ (L : Ledger) (req : ActionRequest),
      Ledger.getEntry L req.requestId = none →
      Ledger.propose L req = Except.ok (L ++ [freshEntry req]) ∧
      entryState (L ++ [freshEntry req]) req.requestId = some EntryState.PROPOSED) ∧
    (∀ (handlers : Handlers) (L : Ledger) (req : ActionRequest) (e : PendingActionEntry),
      Ledger.getEntry L req.requestId = some e →
      Ledger.propose L req = Except.error PipelineError.DuplicateRequestError ∧
      Ledger.getEntry (stepL handlers L (LedgerOp.propose req)) req.requestId = some e) ∧
    (∀ (handlers : Handlers) (L : Ledger) (op : LedgerOp),
      (requestIds L).Nodup → (requestIds (stepL handlers L op)).Nodup) := by
  refine ⟨?_, ?_, ?_⟩
  · intro L req hnone
    have h1 : Ledger.propose L req = Except.ok (L ++ [freshEntry req]) := by
      simp only [Ledger.propose, hnone]
    refine ⟨h1, ?_⟩
    unfold entryState Ledger.getEntry
    unfold Ledger.getEntry at hnone
    rw [find?_append_none _ _ _ hnone]
    simp [List.find?, freshEntry]
  · intro handlers L req e he
    have h1 : Ledger.propose L req = Except.error PipelineError.DuplicateRequestError := by
      simp only [Ledger.propose, he]
    refine ⟨h1, ?_⟩
    have hL : stepL handlers L (LedgerOp.propose req) = L := by
      unfold stepL
      simp only [applyOp, h1]
    rw [hL]
    exact he
  · intro handlers L op h
    exact requestIds_nodup_step handlers L op h

/-- Witness for C4 at a concrete input: proposing requestId r1 twice — the
first call registers a PROPOSED entry, the second fails with
DuplicateRequestError and the entry survives untouched. -/
theorem propose_duplicate_rejected_witness :
    Ledger.propose []
      { requestId := "r1",
        actionName := "scale_service",
        arguments := [("service", "order-service"), ("target_replicas", "5")],
        proposedAt := 3 } =
      Except.ok [freshEntry
        { requestId := "r1",
          actionName := "scale_service",
          arguments := [("service", "order-service"), ("target_replicas", "5")],
          proposedAt := 3 }] ∧
    Ledger.propose
      [freshEntry
        { requestId := "r1",
          actionName := "scale_service",
          arguments := [("service", "order-service"), ("target_replicas", "5")],
          proposedAt := 3 }]
      { requestId := "r1",
        actionName := "scale_service",
        arguments := [("service", "order-service"), ("target_replicas", "5")],
        proposedAt := 3 } =
      Except.error PipelineError.DuplicateRequestError := by
  constructor
  · have h := (propose_duplicate_rejected.1 []
      { requestId := "r1",
        actionName := "scale_service",
        arguments := [("service", "order-service"), ("target_replicas", "5")],
        proposedAt := 3 } (by decide)).1
    simpa using h
  · exact (propose_duplicate_rejected.2.1 (fun _ _ => Except.ok "")
      [freshEntry
        { requestId := "r1",
          actionName := "scale_service",
          arguments := [("service", "order-service"), ("target_replicas", "5")],
          proposedAt := 3 }]
      { requestId := "r1",
        actionName := "scale_service",
        arguments := [("service", "order-service"), ("target_replicas", "5")],
        proposedAt := 3 }
      (freshEntry
        { requestId := "r1",
          actionName := "scale_service",
          arguments := [("service", "order-service"), ("target_replicas", "5")],
          proposedAt := 3 })
      (by decide)).1

/-- C5: listPending returns exactly the entries still in state PROPOSED,
sorted by proposedAt ascending; three successful proposals at times
t1 ≤ t2 ≤ t3 come back in the order [t1, t2, t3]. -/
theorem listPending_sorted_proposed :
    (∀ (L : Ledger) (e : PendingActionEntry),
      e ∈ Ledger.listPending L ↔ e ∈ L ∧ e.state = EntryState.PROPOSED) ∧
    (∀ L : Ledger, List.Pairwise leP (Ledger.listPending L)) ∧
    (∀ req1 req2 req3 : ActionRequest,
      req1.requestId ≠ req2.requestId → req1.requestId ≠ req3.requestId →
      req2.requestId ≠ req3.requestId →
      req1.proposedAt ≤ req2.proposedAt → req2.proposedAt ≤ req3.proposedAt →
      Ledger.propose [] req1 = Except.ok [freshEntry req1] ∧
      Ledger.propose [freshEntry req1] req2 =
        Except.ok [freshEntry req1, freshEntry req2] ∧
      Ledger.propose [freshEntry req1, freshEntry req2] req3 =
        Except.ok [freshEntry req1, freshEntry req2, freshEntry req3] ∧
      (Ledger.listPending [freshEntry req1, freshEntry req2, freshEntry req3]).map
        (fun e => e.request.proposedAt) =
        [req1.proposedAt, req2.proposedAt, req3.proposedAt]) := by
  refine ⟨?_, ?_, ?_⟩
  · intro L e
    unfold Ledger.listPending
    rw [mem_sortByProposedAt, List.mem_filter]
    simp [beq_iff_eq]
  · intro L
    exact pairwise_sortByProposedAt _
  · intro req1 req2 req3 h12ne h13ne h23ne h12 h23
    refine ⟨?_, ?_, ?_, ?_⟩
    · simp [Ledger.propose, Ledger.getEntry, List.find?]
    · simp only [Ledger.propose, Ledger.getEntry, List.find?, freshEntry]
      rw [show (req1.requestId == req2.requestId) = false from
        beq_eq_false_iff_ne.mpr h12ne]
      rfl
    · simp only [Ledger.propose, Ledger.getEntry, List.find?, freshEntry]
      rw [show (req1.requestId == req3.requestId) = false from
        beq_eq_false_iff_ne.mpr h13ne]
      rw [show (req2.requestId == req3.requestId) = false from
        beq_eq_false_iff_ne.mpr h23ne]
      rfl
    · have hfilter : (([freshEntry req1, freshEntry req2, freshEntry req3] : Ledger).filter
          (fun e => e.state == EntryState.PROPOSED)) =
          [freshEntry req1, freshEntry req2, freshEntry req3] := by
        simp [freshEntry]
      have hpw : List.Pairwise leP [freshEntry req1, freshEntry req2, freshEntry req3] := by
        refine List.Pairwise.cons ?_ (List.Pairwise.cons ?_ (List.pairwise_singleton _ _))
        · intro b hb
          rcases List.mem_cons.mp hb with h | h
          · rw [h]; exact h12
          · rw [List.mem_singleton] at h
            rw [h]
            exact Nat.le_trans h12 h23
        · intro b hb
          rw [List.mem_singleton] at hb
          rw [hb]
          exact h23
      unfold Ledger.listPending
      rw [hfilter, sortByProposedAt_of_pairwise _ hpw]
      rfl

/-- Witness for C5 at a concrete input: three proposals at times 1 < 2 < 3
are listed pending in exactly that order. -/
theorem listPending_sorted_proposed_witness :
    Ledger.propose [] { requestId := "r1", actionName := "a1",
                        arguments := [], proposedAt := 1 } =
      Except.ok [freshEntry { requestId := "r1", actionName := "a1",
                              arguments := [], proposedAt := 1 }] ∧
    (Ledger.listPending
      [freshEntry { requestId := "r1", actionName := "a1",
                    arguments := [], proposedAt := 1 },
       freshEntry { requestId := "r2", actionName := "a2",
                    arguments := [], proposedAt := 2 },
       freshEntry { requestId := "r3", actionName := "a3",
                    arguments := [], proposedAt := 3 }]).map
      (fun e => e.request.proposedAt) = [1, 2, 3] := by
  have h := listPending_sorted_proposed.2.2
    { requestId := "r1", actionName := "a1", arguments := [], proposedAt := 1 }
    { requestId := "r2", actionName := "a2", arguments := [], proposedAt := 2 }
    { requestId := "r3", actionName := "a3", arguments := [], proposedAt := 3 }
    (by decide) (by decide) (by decide) (by decide) (by decide)
  exact ⟨h.1, h.2.2.2⟩

/-- C1: for every registered action, approval is required iff the action is
mutating — the `interrupt_on` dict of the SRE agent answers exactly the
`mutating` flag of each tool's definition; the stock-research HIL agent
gates every one of its tools; and a non-mutating action is executed
immediately by the driver, producing no ledger entry. -/
theorem sre_approval_iff_mutating :
    (∀ d : ActionDefinition, d ∈ sreRegistry →
      interruptOn APPROVAL_REQUIRED_TOOLS d.name = d.mutating) ∧
    (∀ d : ActionDefinition, d ∈ sreRegistry →
      requiresApproval sreRegistry d.name = Except.ok d.mutating) ∧
    (∀ n : String, n ∈ STOCK_TOOL_NAMES → interruptOn stock_interrupt_on n = true) ∧
    (∀ (handlers : Handlers) (L : Ledger) (req : ActionRequest) (d : ActionDefinition),
      d ∈ sreRegistry → d.mutating = false → req.actionName = d.name →
      handleAction sreRegistry handlers L req =
        Except.ok (L, some (runHandlerFor handlers (freshEntry req)))) := by
  refine ⟨?_, ?_, ?_, ?_⟩
  · intro d hd
    simp only [sreRegistry, READ_ONLY_TOOL_NAMES, WRITE_TOOL_NAMES, List.map_cons,
      List.map_nil, List.cons_append, List.nil_append, List.mem_cons,
      List.not_mem_nil, or_false] at hd
    rcases hd with rfl | rfl | rfl | rfl | rfl | rfl | rfl | rfl | rfl | rfl | rfl
    all_goals decide
  · intro d hd
    simp only [sreRegistry, READ_ONLY_TOOL_NAMES, WRITE_TOOL_NAMES, List.map_cons,
      List.map_nil, List.cons_append, List.nil_append, List.mem_cons,
      List.not_mem_nil, or_false] at hd
    rcases hd with rfl | rfl | rfl | rfl | rfl | rfl | rfl | rfl | rfl | rfl | rfl
    all_goals rfl
  · intro n hn
    simp only [STOCK_TOOL_NAMES, List.mem_cons, List.not_mem_nil, or_false] at hn
    rcases hn with rfl | rfl | rfl
    all_goals decide
  · intro handlers L req d hd hmut hname
    have hra : requiresApproval sreRegistry req.actionName = Except.ok false := by
      rw [hname]
      simp only [sreRegistry, READ_ONLY_TOOL_NAMES, WRITE_TOOL_NAMES, List.map_cons,
        List.map_nil, List.cons_append, List.nil_append, List.mem_cons,
        List.not_mem_nil, or_false] at hd
      rcases hd with rfl | rfl | rfl | rfl | rfl | rfl | rfl | rfl | rfl | rfl | rfl
      all_goals first
        | rfl
        | exact absurd hmut (by decide)
    simp only [handleAction, hra]

/-- Witness for C1 at concrete inputs: a read-only tool needs no approval,
a write tool does, the stock HIL agent gates its tools, and dispatching a
read-only action leaves the ledger empty while producing a result. -/
theorem sre_approval_iff_mutating_witness :
    interruptOn APPROVAL_REQUIRED_TOOLS "check_service_health" = false ∧
    interruptOn APPROVAL_REQUIRED_TOOLS "restart_service" = true ∧
    requiresApproval sreRegistry "scale_service" = Except.ok true ∧
    interruptOn stock_interrupt_on "internal_db_revenue_growth" = true ∧
    handleAction sreRegistry (fun _ _ => Except.ok "payload") []
      { requestId := "q1", actionName := "list_services",
        arguments := [], proposedAt := 0 } =
      Except.ok ([], some (runHandlerFor (fun _ _ => Except.ok "payload")
        (freshEntry { requestId := "q1", actionName := "list_services",
                      arguments := [], proposedAt := 0 }))) := by
  refine ⟨?_, ?_, ?_, ?_, ?_⟩
  · exact sre_approval_iff_mutating.1 { name := "check_service_health", mutating := false }
      (by decide)
  · exact sre_approval_iff_mutating.1 { name := "restart_service", mutating := true }
      (by decide)
  · exact sre_approval_iff_mutating.2.1 { name := "scale_service", mutating := true }
      (by decide)
  · exact sre_approval_iff_mutating.2.2.1 "internal_db_revenue_growth" (by decide)
  · exact sre_approval_iff_mutating.2.2.2 (fun _ _ => Except.ok "payload") []
      { requestId := "q1", actionName := "list_services", arguments := [], proposedAt := 0 }
      { name := "list_services", mutating := false } (by decide) rfl rfl

/-- C6: a handler failure is recovered locally — the engine records a
FAILED outcome whose reason is the exception message, returns it as an
ordinary tool result (the function is total, nothing propagates), and the
source-level try/except wrapper of every SRE tool returns the message as a
string rather than re-raising. -/
theorem handler_failure_recovered :
    (∀ (handlers : Handlers) (L : Ledger) (rid : String) (t : Nat)
      (e : PendingActionEntry) (msg : String),
      Ledger.getEntry L rid = some e → e.state = EntryState.APPROVED →
      handlers e.request.actionName e.request.arguments = Except.error msg →
      executeEntry handlers L rid t =
        (Except.ok (updState rid (outcomeUpd (Outcome.failure msg) t) L,
          Outcome.failure msg), 1) ∧
      entryState (updState rid (outcomeUpd (Outcome.failure msg) t) L) rid =
        some EntryState.FAILED ∧
      (Ledger.getEntry (updState rid (outcomeUpd (Outcome.failure msg) t) L) rid).map
        (fun x => x.result) = some (some (Outcome.failure msg))) ∧
    (∀ label msg : String, tryExceptReturn label (Except.error msg) = label ++ msg) := by
  constructor
  · intro handlers L rid t e msg he hs hh
    have hout : runHandlerFor handlers e = Outcome.failure msg := by
      unfold runHandlerFor
      rw [hh]
    have hx := executeEntry_approved_eq handlers t he hs
    rw [hout] at hx
    have hbe : (e.request.requestId == rid) = true := by
      rw [getEntry_id he]
      exact beq_self_eq_true rid
    have hget : Ledger.getEntry (updState rid (outcomeUpd (Outcome.failure msg) t) L) rid =
        some (outcomeUpd (Outcome.failure msg) t e) := by
      rw [entryState_updState_step _ (outcomeUpd_id _ t) he, hbe]
      rfl
    refine ⟨hx, ?_, ?_⟩
    · unfold entryState
      rw [hget]
      rfl
    · rw [hget]
      rfl
  · intro label msg
    rfl

/-- Witness for C6 at a concrete input: a handler raising "boom" against an
APPROVED entry yields a FAILED record carrying "boom" and a failure tool
result, with the wrapper string containing the message. -/
theorem handler_failure_recovered_witness :
    executeEntry (fun _ _ => Except.error "boom")
      [{ request := { requestId := "r1", actionName := "restart_service",
                      arguments := [], proposedAt := 0 },
         state := EntryState.APPROVED, decidedBy := some "alice",
         decidedAt := some 1, result := none, completedAt := none }] "r1" 7 =
      (Except.ok (updState "r1" (outcomeUpd (Outcome.failure "boom") 7)
        [{ request := { requestId := "r1", actionName := "restart_service",
                        arguments := [], proposedAt := 0 },
           state := EntryState.APPROVED, decidedBy := some "alice",
           decidedAt := some 1, result := none, completedAt := none }],
        Outcome.failure "boom"), 1) ∧
    tryExceptReturn "Error restarting service: " (Except.error "boom") =
      "Error restarting service: boom" := by
  constructor
  · exact (handler_failure_recovered.1 (fun _ _ => Except.error "boom")
      [{ request := { requestId := "r1", actionName := "restart_service",
                      arguments := [], proposedAt := 0 },
         state := EntryState.APPROVED, decidedBy := some "alice",
         decidedAt := some 1, result := none, completedAt := none }] "r1" 7
      { request := { requestId := "r1", actionName := "restart_service",
                     arguments := [], proposedAt := 0 },
        state := EntryState.APPROVED, decidedBy := some "alice",
        decidedAt := some 1, result := none, completedAt := none } "boom"
      (by decide) rfl rfl).1
  · exact handler_failure_recovered.2 "Error restarting service: " "boom"

/-- C7: the approval policy is a pure, deterministic function of the
approval dict: its answer is unchanged across call history and clock, a
repeated query returns the same answer, and the answer depends only on the
queried name's binding in the dict. -/
theorem requiresApproval_pure :
    (∀ (m : List (String × Bool)) (hist1 hist2 : List (String × Bool)) (t1 t2 : Nat)
      (name : String),
      (queryApproval { approvalMap := m, callHistory := hist1, now := t1 } name).1 =
      (queryApproval { approvalMap := m, callHistory := hist2, now := t2 } name).1) ∧
    (∀ (ctx : ApprovalContext) (name : String),
      (queryApproval (queryApproval ctx name).2 name).1 = (queryApproval ctx name).1) ∧
    (∀ (m1 m2 : List (String × Bool)) (name : String),
      m1.find? (fun p => p.1 == name) = m2.find? (fun p => p.1 == name) →
      interruptOn m1 name = interruptOn m2 name) := by
  refine ⟨?_, ?_, ?_⟩
  · intro m hist1 hist2 t1 t2 name
    rfl
  · intro ctx name
    rfl
  · intro m1 m2 name h
    unfold interruptOn
    rw [h]

/-- Witness for C7 at concrete inputs: the SRE approval dict answers the
same for restart_service regardless of history and clock, and regardless of
unrelated extra registrations. -/
theorem requiresApproval_pure_witness :
    (queryApproval { approvalMap := APPROVAL_REQUIRED_TOOLS, callHistory := [],
                     now := 0 } "restart_service").1 =
    (queryApproval { approvalMap := APPROVAL_REQUIRED_TOOLS,
                     callHistory := [("list_services", false)],
                     now := 99 } "restart_service").1 ∧
    interruptOn APPROVAL_REQUIRED_TOOLS "restart_service" =
      interruptOn (APPROVAL_REQUIRED_TOOLS ++ [("extra_tool", false)])
        "restart_service" := by
  constructor
  · exact requiresApproval_pure.1 APPROVAL_REQUIRED_TOOLS []
      [("list_services", false)] 0 99 "restart_service"
  · exact requiresApproval_pure.2.2 APPROVAL_REQUIRED_TOOLS
      (APPROVAL_REQUIRED_TOOLS ++ [("extra_tool", false)]) "restart_service" (by decide)

theorem findService_setService {s : MockServices} {name : String}
    {p : String × ServiceInfo} (f : ServiceInfo → ServiceInfo)
    (hp : findService s name = some p) :
    findService (setService s name f) name = some (p.1, f p.2) := by
  unfold findService setService
  rw [find?_map_of_pred (fun q => q.1 == name)
    (fun q => if q.1 == name then (q.1, f q.2) else q) ?hf s]
  · unfold findService at hp
    rw [hp]
    have hq0 := List.find?_some hp
    have hq : (p.1 == name) = true := hq0
    show some (if (p.1 == name) = true then (p.1, f p.2) else p) = some (p.1, f p.2)
    rw [hq]
    simp
  · intro x
    cases hx : (x.1 == name)
    · simp [hx]
    · simp [hx]

/-- C8: every service-targeting SRE tool called with a service name absent
from the mock dictionary returns the error string listing the available
services and leaves the dictionary entirely unchanged. -/
theorem unknown_service_error_preserves_state :
    (∀ (now name : String) (s : MockServices), findService s name = none →
      check_service_health now name s = (Except.error (unknownServiceMsg name s), s)) ∧
    (∀ (tsAt : Nat → String) (chAt trAt : Nat → Nat) (now name : String)
      (lvl : LogLevel) (limit : Int) (s : MockServices), findService s name = none →
      get_service_logs tsAt chAt trAt now name lvl limit s =
        (Except.error (unknownServiceMsg name s), s)) ∧
    (∀ (cpuDraw memDraw : Nat → Int) (rps : Nat) (now name tr : String)
      (s : MockServices), findService s name = none →
      get_service_metrics cpuDraw memDraw rps now name tr s =
        (Except.error (unknownServiceMsg name s), s)) ∧
    (∀ (draw : Rat) (a b c d : Nat) (now name : String) (dt : DiagnosticType)
      (s : MockServices), findService s name = none →
      run_diagnostic draw a b c d now name dt s =
        (Except.error (unknownServiceMsg name s), s)) ∧
    (∀ (now name reason : String) (s : MockServices), findService s name = none →
      restart_service now name reason s = (Except.error (unknownServiceMsg name s), s)) ∧
    (∀ (now name : String) (target : Int) (reason : String) (s : MockServices),
      findService s name = none →
      scale_service now name target reason s =
        (Except.error (unknownServiceMsg name s), s)) ∧
    (∀ (now name tv reason : String) (s : MockServices), findService s name = none →
      rollback_deployment now name tv reason s =
        (Except.error (unknownServiceMsg name s), s)) ∧
    (∀ (dur : Nat) (now : String) (pp : Option String) (name : String)
      (rt : RunbookType) (s : MockServices), findService s name = none →
      execute_runbook dur now pp name rt s =
        (Except.error (unknownServiceMsg name s), s)) := by
  refine ⟨?_, ?_, ?_, ?_, ?_, ?_, ?_, ?_⟩
  · intro now name s h
    simp only [check_service_health, h]
  · intro tsAt chAt trAt now name lvl limit s h
    simp only [get_service_logs, h]
  · intro cpuDraw memDraw rps now name tr s h
    simp only [get_service_metrics, h]
  · intro draw a b c d now name dt s h
    simp only [run_diagnostic, h]
  · intro now name reason s h
    simp only [restart_service, h]
  · intro now name target reason s h
    simp only [scale_service, h]
  · intro now name tv reason s h
    simp only [rollback_deployment, h]
  · intro dur now pp name rt s h
    simp only [execute_runbook, h]

/-- Witness for C8 at a concrete input: calling each of the eight tools on
the unknown service "ghost" against the shipped MOCK_SERVICES returns the
catalogue error and the untouched dictionary. -/
theorem unknown_service_error_preserves_state_witness :
    check_service_health "T" "ghost" MOCK_SERVICES =
      (Except.error (unknownServiceMsg "ghost" MOCK_SERVICES), MOCK_SERVICES) ∧
    get_service_logs (fun _ => "T") (fun _ => 0) (fun _ => 11111) "T" "ghost"
        LogLevel.error 10 MOCK_SERVICES =
      (Except.error (unknownServiceMsg "ghost" MOCK_SERVICES), MOCK_SERVICES) ∧
    get_service_metrics (fun _ => 0) (fun _ => 0) 500 "T" "ghost" "1h" MOCK_SERVICES =
      (Except.error (unknownServiceMsg "ghost" MOCK_SERVICES), MOCK_SERVICES) ∧
    run_diagnostic 0.5 100 300 50 1 "T" "ghost" DiagnosticType.full MOCK_SERVICES =
      (Except.error (unknownServiceMsg "ghost" MOCK_SERVICES), MOCK_SERVICES) ∧
    restart_service "T" "ghost" "stuck" MOCK_SERVICES =
      (Except.error (unknownServiceMsg "ghost" MOCK_SERVICES), MOCK_SERVICES) ∧
    scale_service "T" "ghost" 5 "load" MOCK_SERVICES =
      (Except.error (unknownServiceMsg "ghost" MOCK_SERVICES), MOCK_SERVICES) ∧
    rollback_deployment "T" "ghost" "previous" "bad deploy" MOCK_SERVICES =
      (Except.error (unknownServiceMsg "ghost" MOCK_SERVICES), MOCK_SERVICES) ∧
    execute_runbook 30 "T" (some "params") "ghost" RunbookType.clear_cache MOCK_SERVICES =
      (Except.error (unknownServiceMsg "ghost" MOCK_SERVICES), MOCK_SERVICES) := by
  refine ⟨?_, ?_, ?_, ?_, ?_, ?_, ?_, ?_⟩
  · exact unknown_service_error_preserves_state.1 "T" "ghost" MOCK_SERVICES (by decide)
  · exact unknown_service_error_preserves_state.2.1 (fun _ => "T") (fun _ => 0)
      (fun _ => 11111) "T" "ghost" LogLevel.error 10 MOCK_SERVICES (by decide)
  · exact unknown_service_error_preserves_state.2.2.1 (fun _ => 0) (fun _ => 0) 500
      "T" "ghost" "1h" MOCK_SERVICES (by decide)
  · exact unknown_service_error_preserves_state.2.2.2.1 0.5 100 300 50 1 "T" "ghost"
      DiagnosticType.full MOCK_SERVICES (by decide)
  · exact unknown_service_error_preserves_state.2.2.2.2.1 "T" "ghost" "stuck"
      MOCK_SERVICES (by decide)
  · exact unknown_service_error_preserves_state.2.2.2.2.2.1 "T" "ghost" 5 "load"
      MOCK_SERVICES (by decide)
  · exact unknown_service_error_preserves_state.2.2.2.2.2.2.1 "T" "ghost" "previous"
      "bad deploy" MOCK_SERVICES (by decide)
  · exact unknown_service_error_preserves_state.2.2.2.2.2.2.2 30 "T" (some "params")
      "ghost" RunbookType.clear_cache MOCK_SERVICES (by decide)

/-- C9: scale_service on a known service rejects any target outside [1, 10]
with an error and an untouched dictionary; inside the range it stores
exactly the target replica count and reports the previous count and the
scale direction ("up" exactly when the target exceeds it). -/
theorem scale_service_bounds_and_update :
    (∀ (now name : String) (target : Int) (reason : String) (s : MockServices)
      (p : String × ServiceInfo), findService s name = some p →
      ¬ (1 ≤ target ∧ target ≤ 10) →
      scale_service now name target reason s =
        (Except.error "Error: target_replicas must be between 1 and 10", s)) ∧
    (∀ (now name : String) (target : Int) (reason : String) (s : MockServices)
      (p : String × ServiceInfo), findService s name = some p →
      1 ≤ target → target ≤ 10 →
      scale_service now name target reason s =
        (Except.ok { action := "scale_service", service := name, status := "completed",
                     previous_replicas := p.2.replicas, new_replicas := target,
                     scale_direction :=
                       if target > (p.2.replicas : Int) then "up" else "down",
                     reason := reason, estimated_time := "30-60 seconds",
                     timestamp := now },
         setService s name (fun i => { i with replicas := target.toNat })) ∧
      findService (setService s name (fun i => { i with replicas := target.toNat }))
        name = some (p.1, { p.2 with replicas := target.toNat })) := by
  constructor
  · intro now name target reason s p hp hout
    simp only [scale_service, hp]
    rw [if_pos hout]
  · intro now name target reason s p hp h1 h10
    refine ⟨?_, findService_setService _ hp⟩
    simp only [scale_service, hp]
    rw [if_neg (not_not_intro ⟨h1, h10⟩)]

/-- Witness for C9 at concrete inputs: scaling api-gateway to 0 is refused
and MOCK_SERVICES survives; scaling it to 5 stores 5 replicas and reports
previous_replicas 3, direction "up". -/
theorem scale_service_bounds_and_update_witness :
    scale_service "T" "api-gateway" 0 "cost" MOCK_SERVICES =
      (Except.error "Error: target_replicas must be between 1 and 10", MOCK_SERVICES) ∧
    scale_service "T" "api-gateway" 5 "load" MOCK_SERVICES =
      (Except.ok { action := "scale_service", service := "api-gateway",
                   status := "completed", previous_replicas := 3, new_replicas := 5,
                   scale_direction := "up", reason := "load",
                   estimated_time := "30-60 seconds", timestamp := "T" },
       setService MOCK_SERVICES "api-gateway"
         (fun i => { i with replicas := (5 : Int).toNat })) := by
  constructor
  · exact scale_service_bounds_and_update.1 "T" "api-gateway" 0 "cost" MOCK_SERVICES
      ("api-gateway",
       { status := "healthy", replicas := 3, cpu := 45, memory := 62,
         latency_p99 := 120, error_rate := 0.1, version := "v2.4.1",
         last_deploy := "2024-01-10T14:30:00Z" })
      rfl (by decide)
  · have h := (scale_service_bounds_and_update.2 "T" "api-gateway" 5 "load" MOCK_SERVICES
      ("api-gateway",
       { status := "healthy", replicas := 3, cpu := 45, memory := 62,
         latency_p99 := 120, error_rate := 0.1, version := "v2.4.1",
         last_deploy := "2024-01-10T14:30:00Z" })
      rfl (by decide) (by decide)).1
    simpa using h

/-- C10: restart_service on a known service marks it healthy, caps cpu at
60 and memory at 65 (never increasing either), leaves its remaining fields
alone, and leaves every other service untouched. -/
theorem restart_service_frame :
    (∀ (now name reason : String) (s : MockServices) (p : String × ServiceInfo),
      findService s name = some p →
      restart_service now name reason s =
        (Except.ok { action := "restart_service", service := name,
                     status := "completed", restart_type := "rolling",
                     replicas_restarted := p.2.replicas,
                     downtime := "0s (rolling restart)", reason := reason,
                     new_status := "healthy", timestamp := now },
         setService s name restartUpdate) ∧
      findService (setService s name restartUpdate) name =
        some (p.1, restartUpdate p.2)) ∧
    (∀ i : ServiceInfo,
      (restartUpdate i).status = "healthy" ∧
      (restartUpdate i).cpu = min 60 i.cpu ∧
      (restartUpdate i).memory = min 65 i.memory ∧
      (restartUpdate i).cpu ≤ i.cpu ∧
      (restartUpdate i).memory ≤ i.memory ∧
      (restartUpdate i).replicas = i.replicas ∧
      (restartUpdate i).version = i.version ∧
      (restartUpdate i).latency_p99 = i.latency_p99 ∧
      (restartUpdate i).error_rate = i.error_rate ∧
      (restartUpdate i).last_deploy = i.last_deploy) ∧
    (∀ (s : MockServices) (name : String) (q : String × ServiceInfo),
      q ∈ s → q.1 ≠ name → q ∈ setService s name restartUpdate) := by
  refine ⟨?_, ?_, ?_⟩
  · intro now name reason s p hp
    refine ⟨?_, findService_setService _ hp⟩
    simp only [restart_service, hp]
  · intro i
    refine ⟨rfl, rfl, rfl, Nat.min_le_right 60 i.cpu, Nat.min_le_right 65 i.memory,
      rfl, rfl, rfl, rfl, rfl⟩
  · intro s name q hq hne
    have himg := List.mem_map_of_mem
      (fun r => if r.1 == name then (r.1, restartUpdate r.2) else r) hq
    have himg2 : (if q.1 == name then (q.1, restartUpdate q.2) else q) ∈
        List.map (fun r => if r.1 == name then (r.1, restartUpdate r.2) else r) s := himg
    have heq : (if q.1 == name then (q.1, restartUpdate q.2) else q) = q := by
      rw [if_neg]
      intro hb
      exact hne (eq_of_beq hb)
    rw [heq] at himg2
    exact himg2

/-- Witness for C10 at a concrete input: restarting the degraded
order-service (cpu 85, memory 78) yields status healthy, cpu 60, memory 65
in place, with every other field and service intact. -/
theorem restart_service_frame_witness :
    restart_service "T" "order-service" "stuck" MOCK_SERVICES =
      (Except.ok { action := "restart_service", service := "order-service",
                   status := "completed", restart_type := "rolling",
                   replicas_restarted := 3, downtime := "0s (rolling restart)",
                   reason := "stuck", new_status := "healthy", timestamp := "T" },
       setService MOCK_SERVICES "order-service" restartUpdate) ∧
    restartUpdate { status := "degraded", replicas := 3, cpu := 85, memory := 78,
                    latency_p99 := 450, error_rate := 2.5, version := "v3.2.0",
                    last_deploy := "2024-01-12T09:00:00Z" } =
      { status := "healthy", replicas := 3, cpu := 60, memory := 65,
        latency_p99 := 450, error_rate := 2.5, version := "v3.2.0",
        last_deploy := "2024-01-12T09:00:00Z" } ∧
    ("api-gateway",
     { status := "healthy", replicas := 3, cpu := 45, memory := 62,
       latency_p99 := 120, error_rate := 0.1, version := "v2.4.1",
       last_deploy := "2024-01-10T14:30:00Z" }) ∈
      setService MOCK_SERVICES "order-service" restartUpdate := by
  refine ⟨?_, rfl, ?_⟩
  · have h := (restart_service_frame.1 "T" "order-service" "stuck" MOCK_SERVICES
      ("order-service",
       { status := "degraded", replicas := 3, cpu := 85, memory := 78,
         latency_p99 := 450, error_rate := 2.5, version := "v3.2.0",
         last_deploy := "2024-01-12T09:00:00Z" }) rfl).1
    simpa using h
  · exact restart_service_frame.2.2 MOCK_SERVICES "order-service"
      ("api-gateway",
       { status := "healthy", replicas := 3, cpu := 45, memory := 62,
         latency_p99 := 120, error_rate := 0.1, version := "v2.4.1",
         last_deploy := "2024-01-10T14:30:00Z" })
      (List.mem_cons_self _ _) (by decide)
